import Mathlib

/-!
Verification development for the TailLeader aircraft tracker.

Shallow embedding of the core of the repository:
- `src/tailleader/poller.py` (presence tracker: `normalize_registration`, `poll_once`),
- `src/tailleader/aircraft_db.py` (enrichment cache: `lookup_registration`),
- `src/tailleader/aircraft_type_normalizer.py` (type normalizer:
  `normalize_manufacturer`, the ordered pattern cascade, `normalize_aircraft_type`).

Python strings are Lean `String`s; Python `None` is `Option.none`; Python
truthiness on strings ("" is falsy) is made explicit; Python machine
integers (epoch seconds) are Lean `Int`; floating point payloads
(rssi/lat/lon/track) are carried opaquely as `Option Int` values since the
code only ever copies them. A Python dict is an association list with
unique keys (insertion order preserved, as in CPython).
-/

namespace TailLeader

/-! ## Python string primitives -/

/-- The characters Python's `str.strip` and `\s` treat as whitespace (ASCII part). -/
def isPySpace (c : Char) : Bool :=
  c = ' ' || c = '\t' || c = '\n' || c = '\r' || c = '\x0b' || c = '\x0c'

/-- Python `s.strip()`: remove leading and trailing whitespace. -/
def pyStrip (s : String) : String :=
  String.mk (((s.data.dropWhile isPySpace).reverse.dropWhile isPySpace).reverse)

/-- Python `s.upper()` (ASCII). -/
def pyUpper (s : String) : String :=
  String.mk (s.data.map Char.toUpper)

/-- Python truthiness filter on an optional string: `None` and `""` are falsy. -/
def truthyStr (o : Option String) : Option String :=
  match o with
  | some s => if s.isEmpty then none else some s
  | none => none

/-- Python `a or b` on optional strings: returns `a` when truthy, else `b` as-is. -/
def pyOrS (a b : Option String) : Option String :=
  match a with
  | some s => if s.isEmpty then b else some s
  | none => b

/-- Python `a or b` on optional numbers: `None` and `0` are falsy. -/
def pyOrNum (a b : Option Int) : Option Int :=
  match a with
  | some v => if v = 0 then b else some v
  | none => b

/-! ## Presence tracker data model (`src/tailleader/poller.py`) -/

/-- One aircraft snapshot from the feed (`ac` dict in `poll_once`).
Only the fields the poller reads are modelled. -/
structure Snapshot where
  hex : Option String := none
  icao : Option String := none
  reg : Option String := none
  flight : Option String := none
  rssi : Option Int := none
  lat : Option Int := none
  lon : Option Int := none
  track : Option Int := none
  heading : Option Int := none
  deriving DecidableEq

/-- A `seen_aircraft` value: `(registration, last_rssi, last_lat, last_lon,
last_track, last_observed_at)`. -/
structure Entry where
  registration : Option String
  rssi : Option Int
  lat : Option Int
  lon : Option Int
  track : Option Int
  time : Int
  deriving DecidableEq

/-- A row written by `insert_event` (`db.py`): the Visit Event. -/
structure Event where
  observed_at : Int
  hex : String
  registration : Option String
  rssi : Option Int
  lat : Option Int
  lon : Option Int
  deriving DecidableEq

/-- The `seen_aircraft` dict: association list, unique keys, insertion order. -/
def State := List (String × Entry)

/-- Dict lookup: first entry with the given key. -/
def lookupA : List (String × Entry) → String → Option Entry
  | [], _ => none
  | (k, v) :: t, h => if k = h then some v else lookupA t h

/-- Dict assignment `d[h] = e`: replace in place when the key exists, else append
(CPython insertion-order semantics). -/
def updateA : List (String × Entry) → String → Entry → List (String × Entry)
  | [], h, e => [(h, e)]
  | (k, v) :: t, h, e => if k = h then (h, e) :: t else (k, v) :: updateA t h e

/-- The keys of the dict. -/
def keysA (s : List (String × Entry)) : List String := s.map Prod.fst

/-- `normalize_registration` (poller.py lines 18-27). -/
def normalize_registration (reg : Option String) : Option String :=
  match truthyStr reg with
  | none => none
  | some r =>
    let s := pyUpper (pyStrip r)
    if 2 ≤ s.length then some s else none

/-- `ac.get("hex") or ac.get("icao")` followed by the `if not hex_id` guard
and `hex_id.upper()` (poller.py lines 88-92). -/
def effHexU (ac : Snapshot) : Option String :=
  (truthyStr (pyOrS ac.hex ac.icao)).map pyUpper

/-- The `current_hexes` set accumulated over a batch (poller.py line 93). -/
def batchHexes (batch : List Snapshot) : List String :=
  batch.filterMap effHexU

/-- The registration chosen for a snapshot (poller.py lines 98-104):
broadcast `reg` field, else broadcast `flight` field, else the synchronous
cache lookup `get_cached_registration` (truthiness-checked). The fallback
`asyncio.create_task(lookup_and_cache(...))` has no synchronous effect. -/
def snapReg (cache : String → Option String) (h : String) (ac : Snapshot) : Option String :=
  match pyOrS (normalize_registration ac.reg) (normalize_registration ac.flight) with
  | some r => some r
  | none => truthyStr (cache h)

/-- The fresh `seen_aircraft` entry for a first observation (poller.py line 120). -/
def newEntry (cache : String → Option String) (now : Int) (h : String) (ac : Snapshot) : Entry :=
  ⟨snapReg cache h ac, ac.rssi, ac.lat, ac.lon, pyOrNum ac.track ac.heading, now⟩

/-- The `seen_aircraft` update for a subsequent observation (poller.py line 126):
`(reg or old_reg, rssi, lat, lon, track, now)`. -/
def updEntry (cache : String → Option String) (now : Int) (h : String) (ac : Snapshot)
    (old : Entry) : Entry :=
  ⟨pyOrS (snapReg cache h ac) old.registration, ac.rssi, ac.lat, ac.lon,
    pyOrNum ac.track ac.heading, now⟩

/-- The event dict passed to `insert_event` on a first observation
(poller.py lines 111-118). -/
def mkEvent (cache : String → Option String) (now : Int) (h : String) (ac : Snapshot) : Event :=
  ⟨now, h, snapReg cache h ac, ac.rssi, ac.lat, ac.lon⟩

/-- The observation-processing loop of `poll_once` (poller.py lines 87-126),
with the persistence collaborator `insert_event` modelled by the predicate
`fails` (`fails h = true` means the insert for hex `h` raises).  The loop body
does not guard `await insert_event` with a try block, so a raising insert
propagates: processing stops, mutations made so far persist, and the `Bool`
result records the abort.  Returns (state, events written so far, aborted). -/
def processSnaps (fails : String → Bool) (cache : String → Option String) (now : Int) :
    List (String × Entry) → List Event → List Snapshot →
    (List (String × Entry)) × List Event × Bool
  | s, evs, [] => (s, evs, false)
  | s, evs, ac :: rest =>
    match effHexU ac with
    | none => processSnaps fails cache now s evs rest
    | some h =>
      match lookupA s h with
      | some old => processSnaps fails cache now (updateA s h (updEntry cache now h ac old)) evs rest
      | none =>
        if fails h then (s, evs, true)
        else processSnaps fails cache now (updateA s h (newEntry cache now h ac))
          (evs ++ [mkEvent cache now h ac]) rest

/-- The eviction sweep of `poll_once` (poller.py lines 128-134): delete every
entry whose hex is not in `current_hexes` and whose last observation is more
than 600 seconds old. -/
def evict (now : Int) (cur : List String) (s : List (String × Entry)) : List (String × Entry) :=
  s.filter (fun p => !(!cur.contains p.1 && decide (600 < now - p.2.time)))

/-- `poll_once` on an already-fetched batch (poller.py lines 83-134).  When a
Visit Event insert raises, the exception propagates out of `poll_once` before
the eviction sweep runs; `run_poller` catches it one level up. -/
def poll_once (fails : String → Bool) (cache : String → Option String) (now : Int)
    (s : List (String × Entry)) (batch : List Snapshot) :
    (List (String × Entry)) × List Event × Bool :=
  match processSnaps fails cache now s [] batch with
  | (s', evs, true) => (s', evs, true)
  | (s', evs, false) => (evict now (batchHexes batch) s', evs, false)

/-- `poll_once` under a persistence layer that never raises. -/
def pollOk (cache : String → Option String) (now : Int)
    (s : List (String × Entry)) (batch : List Snapshot) :
    (List (String × Entry)) × List Event × Bool :=
  poll_once (fun _ => false) cache now s batch

/-- One poll cycle's inputs: the wall clock, the enrichment cache contents at
that moment, and the fetched snapshot batch. -/
structure Cycle where
  now : Int
  cache : String → Option String
  batch : List Snapshot

/-- A run of successive poll cycles (no persistence failures); accumulates the
Visit Events written across the run. -/
def cyclesRun : List (String × Entry) → List Cycle →
    (List (String × Entry)) × List Event
  | s, [] => (s, [])
  | s, c :: cs =>
    let r := pollOk c.cache c.now s c.batch
    let rr := cyclesRun r.1 cs
    (rr.1, r.2.1 ++ rr.2)

/-- The Visit Events of a run that concern one identifier. -/
def eventsFor (h : String) (evs : List Event) : List Event :=
  evs.filter (fun e => e.hex == h)

/-- Bool-valued "the Session for `h` stays live through these cycles": at each
cycle, `h` either appears in the batch or its stored last-observation time is
within the eviction window of that cycle's clock. -/
def staysLive (h : String) : List (String × Entry) → List Cycle → Bool
  | _, [] => true
  | s, c :: cs =>
    ((batchHexes c.batch).contains h ||
      (match lookupA s h with
       | some e => decide (c.now - e.time ≤ 600)
       | none => false)) &&
    staysLive h (pollOk c.cache c.now s c.batch).1 cs

/-! ## Enrichment cache (`src/tailleader/aircraft_db.py`) -/

/-- A positive lookup result: `(registration, aircraft_type, manufacturer, icao_type)`. -/
def RegRes := String × Option String × Option String × Option String

/-- The `_cache` dict: hex maps to either a tuple (positive) or `None`
(explicit negative marker). -/
def LCache := List (String × Option RegRes)

/-- Cache dict lookup (`hex_code in _cache` / `_cache[hex_code]`). -/
def lookupC : List (String × Option RegRes) → String → Option (Option RegRes)
  | [], _ => none
  | (k, v) :: t, h => if k = h then some v else lookupC t h

/-- Cache dict assignment `_cache[hex_code] = v`. -/
def updateC : List (String × Option RegRes) → String → Option RegRes →
    List (String × Option RegRes)
  | [], h, v => [(h, v)]
  | (k, w) :: t, h, v => if k = h then (h, v) :: t else (k, w) :: updateC t h v

/-- The fields `lookup_registration` reads out of the upstream JSON body
(`data.get('response', {}).get('aircraft', {})`). -/
structure AirData where
  registration : Option String := none
  regid : Option String := none
  typ : Option String := none
  manufacturer : Option String := none
  icaoTy : Option String := none

/-- One upstream HTTP exchange: `none` models any exception inside the try
block (network error, timeout, malformed JSON); `some (code, body)` models a
completed response with its status code and parsed body. -/
def Upstream := String → Option (Int × AirData)

/-- `lookup_registration` (aircraft_db.py lines 9-47).  Returns the cache
after the call, the value returned to the caller, and whether an upstream
call was made.  On a cache hit the cached value is returned untouched; on a
miss one upstream call happens: a 200 response with a truthy
`registration or regid` field is cached positively (registration
stripped/uppercased), every other outcome falls through to the explicit
negative cache write `_cache[hex_code] = None`. -/
def lookup_registration (up : Upstream) (cache : List (String × Option RegRes))
    (hex_code : String) :
    (List (String × Option RegRes)) × Option RegRes × Bool :=
  let h := pyUpper hex_code
  match lookupC cache h with
  | some v => (cache, v, false)
  | none =>
    match up h with
    | some (code, air) =>
      if code = 200 then
        match truthyStr (pyOrS air.registration air.regid) with
        | some reg0 =>
          let res : RegRes := (pyUpper (pyStrip reg0), air.typ, air.manufacturer, air.icaoTy)
          (updateC cache h (some res), some res, true)
        | none => (updateC cache h none, none, true)
      else (updateC cache h none, none, true)
    | none => (updateC cache h none, none, true)

/-- A sequence of later `lookup_registration` calls, each with its own
upstream behaviour and argument; only the cache evolution is kept. -/
def lookupRun : List (String × Option RegRes) → List (Upstream × String) →
    List (String × Option RegRes)
  | cache, [] => cache
  | cache, (up, x) :: rest => lookupRun (lookup_registration up cache x).1 rest

/-- An upstream exchange that counts as a lookup failure in the spec's sense:
an exception (network error, timeout, malformed response) or a non-success
status code. -/
def upstreamFailure (r : Option (Int × AirData)) : Prop :=
  r = none ∨ ∃ c a, r = some (c, a) ∧ c ≠ 200

/-! ## Regular expressions (`re` with `re.IGNORECASE`, the subset
`aircraft_type_normalizer.py` uses) -/

/-- Regex abstract syntax: literal characters (matched case-insensitively,
mirroring `re.IGNORECASE`), character classes, `.`, concatenation,
alternation, `*`, `?`, the `$` anchor, and negative lookahead `(?!...)`.
`nul` matches nothing (the unit of alternation). -/
inductive Re where
  | nul
  | eps
  | chr (c : Char)
  | cls (p : Char → Bool)
  | anyc
  | seq (a b : Re)
  | alt (a b : Re)
  | star (a : Re)
  | opt (a : Re)
  | eos
  | nlk (a : Re)

/-- Fuelled backtracking matcher in continuation-passing style: `mtch fuel r s k`
is true when some prefix of `s` matches `r` and `k` accepts the remaining
suffix.  `$` matches at the end of input or just before a final newline, as in
Python without `re.MULTILINE`; `.` matches any character except newline. -/
def mtch : Nat → Re → List Char → (List Char → Bool) → Bool
  | 0, _, _, _ => false
  | Nat.succ fuel, re, s, k =>
    match re with
    | Re.nul => false
    | Re.eps => k s
    | Re.chr c =>
      match s with
      | [] => false
      | x :: rest => if x.toUpper = c.toUpper then k rest else false
    | Re.cls p =>
      match s with
      | [] => false
      | x :: rest => if p x then k rest else false
    | Re.anyc =>
      match s with
      | [] => false
      | x :: rest => if x = '\n' then false else k rest
    | Re.seq a b => mtch fuel a s (fun s' => mtch fuel b s' k)
    | Re.alt a b => mtch fuel a s k || mtch fuel b s k
    | Re.star a => k s || mtch fuel a s (fun s' => mtch fuel (Re.star a) s' k)
    | Re.opt a => k s || mtch fuel a s k
    | Re.eos =>
      match s with
      | [] => k s
      | ['\n'] => k s
      | _ => false
    | Re.nlk a => if mtch fuel a s (fun _ => true) then false else k s

/-- Fuel budget: ample for the pattern sizes and subject lengths involved
(every recursive step consumes fuel, so exploration is bounded by it). -/
def FUEL : Nat := 4000

/-- `pattern.fullmatch(s)` as a Boolean: the whole subject matches. -/
def reFullmatch (r : Re) (s : List Char) : Bool :=
  mtch FUEL r s (fun rest => rest.isEmpty)

/-- `pattern.search(s)` as a Boolean: some suffix start position admits a match. -/
def reSearch (r : Re) : List Char → Bool
  | [] => mtch FUEL r [] (fun _ => true)
  | c :: t => mtch FUEL r (c :: t) (fun _ => true) || reSearch r t

/-- Concatenation of a rule's pieces. -/
def rcat (l : List Re) : Re := l.foldr Re.seq Re.eps

/-- Alternation `p1|p2|...` of a rule's branches. -/
def ralt (l : List Re) : Re := l.foldr Re.alt Re.nul

/-- A literal string, character by character. -/
def rlit (s : String) : Re := rcat (s.data.map Re.chr)

/-- `.*` -/
def dstar : Re := Re.star Re.anyc

/-- `\s` -/
def wsc : Re := Re.cls isPySpace

/-- `\s*` -/
def wss : Re := Re.star wsc

/-- `\d` -/
def dig : Re := Re.cls Char.isDigit

/-- `\d{2}` -/
def dig2 : Re := rcat [dig, dig]

/-- `[0-9A-Z]` under `re.IGNORECASE` (also matches lowercase letters). -/
def alnum : Re := Re.cls (fun c => c.isDigit || ('A' ≤ c.toUpper && c.toUpper ≤ 'Z'))

/-- `[0-9A-Z]{2}` -/
def alnum2 : Re := rcat [alnum, alnum]

/-- A character range such as `[1-9]`. -/
def crange (lo hi : Char) : Re := Re.cls (fun c => lo ≤ c && c ≤ hi)

/-- An optional literal such as `-?` or `EO?`. -/
def ropt (s : String) : Re := Re.opt (rlit s)

/-- `[\s/]` -/
def wsSlash : Re := Re.cls (fun c => isPySpace c || c = '/')

/-- `[IF]` under `re.IGNORECASE`. -/
def clsIF : Re := Re.cls (fun c => c.toUpper = 'I' || c.toUpper = 'F')

/-! ### The ordered pattern table (`_init_patterns`, normalizer lines 110-398)

One Lean entry per source tuple `(regex, canonical_name, manufacturer_override)`,
in the same order.  The table is split into blocks only to keep definitions
readable; `AIRCRAFT_PATTERNS` concatenates them in source order. -/

/-- Airbus narrowbody and widebody rules (normalizer lines 111-149). -/
def patternsAirbus : List (Re × String × String) := [
  (rcat [rlit "A", wss, rlit "318", dstar], "A318", "Airbus"),
  (ralt [rcat [rlit "A", wss, rlit "319", dstar, rlit "N", ropt "EO", dstar],
         rcat [rlit "A", wss, rlit "319", dstar,
               ralt [rcat [rlit "17", crange '1' '9'], rcat [rlit "18", dig]],
               rlit "N", dstar]], "A319neo", "Airbus"),
  (rcat [rlit "A", wss, rlit "319", dstar], "A319", "Airbus"),
  (ralt [rcat [rlit "A", wss, rlit "320", dstar, rlit "N", ropt "EO", dstar],
         rcat [rlit "A", wss, rlit "320", dstar, rlit "27", dig, rlit "N", dstar],
         rcat [rlit "A", wss, rlit "320", dstar, rlit "251N", dstar],
         rcat [rlit "A", wss, rlit "320", dstar, rlit "271N", dstar]], "A320neo", "Airbus"),
  (rcat [rlit "A", wss, rlit "320", dstar], "A320", "Airbus"),
  (rcat [rlit "A", wss, rlit "321", dstar, rlit "XLR", dstar], "A321XLR", "Airbus"),
  (rcat [rlit "A", wss, rlit "321", dstar, rlit "LR", dstar], "A321LR", "Airbus"),
  (ralt [rcat [rlit "A", wss, rlit "321", dstar, rlit "N", ropt "EO", dstar],
         rcat [rlit "A", wss, rlit "321", dstar,
               ralt [rcat [rlit "25", dig], rcat [rlit "27", dig]], rlit "N", dstar]],
    "A321neo", "Airbus"),
  (rcat [rlit "A", wss, rlit "321", dstar], "A321", "Airbus"),
  (ralt [rcat [rlit "A", wss, rlit "330", dstar, rlit "N", ropt "EO", dstar],
         rcat [rlit "A", wss, rlit "330", dstar, ralt [rlit "8", rlit "9"], rlit "00N", dstar],
         rcat [rlit "A", wss, rlit "330-8", dstar],
         rcat [rlit "A", wss, rlit "330-9", dstar]], "A330neo", "Airbus"),
  (ralt [rcat [rlit "A", wss, rlit "330", dstar, rlit "300", dstar],
         rcat [rlit "A", wss, rlit "330-3", dstar]], "A330-300", "Airbus"),
  (ralt [rcat [rlit "A", wss, rlit "330", dstar, rlit "200", dstar],
         rcat [rlit "A", wss, rlit "330-2", dstar]], "A330-200", "Airbus"),
  (rcat [rlit "A", wss, rlit "330", dstar], "A330", "Airbus"),
  (ralt [rcat [rlit "A", wss, rlit "340", dstar, rlit "600", dstar],
         rcat [rlit "A", wss, rlit "340-6", dstar]], "A340-600", "Airbus"),
  (ralt [rcat [rlit "A", wss, rlit "340", dstar, rlit "500", dstar],
         rcat [rlit "A", wss, rlit "340-5", dstar]], "A340-500", "Airbus"),
  (ralt [rcat [rlit "A", wss, rlit "340", dstar, rlit "300", dstar],
         rcat [rlit "A", wss, rlit "340-3", dstar]], "A340-300", "Airbus"),
  (ralt [rcat [rlit "A", wss, rlit "340", dstar, rlit "200", dstar],
         rcat [rlit "A", wss, rlit "340-2", dstar]], "A340-200", "Airbus"),
  (rcat [rlit "A", wss, rlit "340", dstar], "A340", "Airbus"),
  (ralt [rcat [rlit "A", wss, rlit "350", dstar, rlit "1000", dstar],
         rcat [rlit "A", wss, rlit "350-10", dstar]], "A350-1000", "Airbus"),
  (ralt [rcat [rlit "A", wss, rlit "350", dstar, rlit "900", dstar],
         rcat [rlit "A", wss, rlit "350-9", dstar]], "A350-900", "Airbus"),
  (rcat [rlit "A", wss, rlit "350", dstar], "A350", "Airbus"),
  (rcat [rlit "A", wss, rlit "380", dstar], "A380", "Airbus")]

/-- Boeing 737 rules (normalizer lines 151-176). -/
def patterns737 : List (Re × String × String) := [
  (ralt [rcat [rlit "737-9", alnum2, dstar],
         rcat [rlit "737", dstar, rlit "NG", dstar, rlit "900", dstar],
         rcat [rlit "737", dstar, rlit "900", dstar]], "737-900", "Boeing"),
  (ralt [rcat [rlit "737-8", alnum2, dstar],
         rcat [rlit "737", dstar, rlit "NG", dstar, rlit "800", dstar],
         rcat [rlit "737", dstar, rlit "800", dstar]], "737-800", "Boeing"),
  (ralt [rcat [rlit "737-7", alnum2, dstar],
         rcat [rlit "737", dstar, rlit "NG", dstar, rlit "700", dstar],
         rcat [rlit "737", dstar, rlit "700", dstar]], "737-700", "Boeing"),
  (ralt [rcat [rlit "737-6", alnum2, dstar],
         rcat [rlit "737", dstar, rlit "NG", dstar, rlit "600", dstar],
         rcat [rlit "737", dstar, rlit "600", dstar]], "737-600", "Boeing"),
  (ralt [rcat [rlit "737", dstar, rlit "MAX", wss, rlit "10", dstar],
         rcat [rlit "737-10", ralt [wsc, Re.eos], dstar]], "737 MAX 10", "Boeing"),
  (ralt [rcat [rlit "737", dstar, rlit "MAX", wss, rlit "9", dstar],
         rcat [rlit "737-9", wss, rlit "MAX", dstar],
         rcat [rlit "737-9", ralt [wsSlash, Re.eos], Re.nlk alnum2, dstar]],
    "737 MAX 9", "Boeing"),
  (ralt [rcat [rlit "737", dstar, rlit "MAX", wss, rlit "8", dstar],
         rcat [rlit "737-8", wss, rlit "MAX", dstar],
         rcat [rlit "737-8", ralt [wsSlash, Re.eos], Re.nlk alnum2, dstar]],
    "737 MAX 8", "Boeing"),
  (ralt [rcat [rlit "737", dstar, rlit "MAX", wss, rlit "7", dstar],
         rcat [rlit "737-7", wss, rlit "MAX", dstar],
         rcat [rlit "737-7", ralt [wsSlash, Re.eos], Re.nlk alnum2, dstar]],
    "737 MAX 7", "Boeing"),
  (rcat [rlit "737", dstar, rlit "MAX", dstar], "737 MAX", "Boeing"),
  (ralt [rcat [rlit "737-5", dig2, dstar],
         rcat [rlit "737", dstar, rlit "500", dstar]], "737-500", "Boeing"),
  (ralt [rcat [rlit "737-4", dig2, dstar],
         rcat [rlit "737", dstar, rlit "400", dstar]], "737-400", "Boeing"),
  (ralt [rcat [rlit "737-3", dig2, dstar],
         rcat [rlit "737", dstar, rlit "300", dstar]], "737-300", "Boeing"),
  (ralt [rcat [rlit "737-2", dig2, dstar],
         rcat [rlit "737", dstar, rlit "200", dstar]], "737-200", "Boeing"),
  (ralt [rcat [rlit "737-1", dig2, dstar],
         rcat [rlit "737", dstar, rlit "100", dstar]], "737-100", "Boeing"),
  (rcat [rlit "737", dstar], "737", "Boeing")]

/-- Boeing 747/757/767/777/787 rules (normalizer lines 178-211). -/
def patternsBoeingWide : List (Re × String × String) := [
  (ralt [rcat [rlit "747-8", dstar],
         rcat [rlit "747", dstar, rlit "8", clsIF, dstar]], "747-8", "Boeing"),
  (ralt [rcat [rlit "747-400", dstar], rcat [rlit "747-4", dig2, dstar]], "747-400", "Boeing"),
  (ralt [rcat [rlit "747-300", dstar], rcat [rlit "747-3", dig2, dstar]], "747-300", "Boeing"),
  (ralt [rcat [rlit "747-200", dstar], rcat [rlit "747-2", dig2, dstar]], "747-200", "Boeing"),
  (ralt [rcat [rlit "747-100", dstar], rcat [rlit "747-1", dig2, dstar],
         rcat [rlit "747SP", dstar]], "747-100", "Boeing"),
  (rcat [rlit "747", dstar], "747", "Boeing"),
  (ralt [rcat [rlit "757-300", dstar], rcat [rlit "757-3", dig2, dstar]], "757-300", "Boeing"),
  (ralt [rcat [rlit "757-200", dstar], rcat [rlit "757-2", dig2, dstar]], "757-200", "Boeing"),
  (rcat [rlit "757", dstar], "757", "Boeing"),
  (ralt [rcat [rlit "767-400", dstar], rcat [rlit "767-4", dig2, dstar]], "767-400", "Boeing"),
  (ralt [rcat [rlit "767-300", dstar], rcat [rlit "767-3", dig2, dstar]], "767-300", "Boeing"),
  (ralt [rcat [rlit "767-200", dstar], rcat [rlit "767-2", dig2, dstar]], "767-200", "Boeing"),
  (rcat [rlit "767", dstar], "767", "Boeing"),
  (ralt [rcat [rlit "777-9", dstar],
         rcat [rlit "777X", dstar, rlit "9", dstar]], "777-9", "Boeing"),
  (ralt [rcat [rlit "777-8", dstar],
         rcat [rlit "777X", dstar, rlit "8", dstar]], "777-8", "Boeing"),
  (ralt [rcat [rlit "777", dstar, rlit "300ER", dstar],
         rcat [rlit "777-3", dig2, rlit "ER", dstar],
         rcat [rlit "777F", dstar]], "777-300ER", "Boeing"),
  (ralt [rcat [rlit "777-300", dstar],
         rcat [rlit "777-3", dig2, Re.nlk (rlit "ER"), dstar]], "777-300", "Boeing"),
  (ralt [rcat [rlit "777", dstar, rlit "200ER", dstar],
         rcat [rlit "777-2", dig2, rlit "ER", dstar]], "777-200ER", "Boeing"),
  (ralt [rcat [rlit "777", dstar, rlit "200LR", dstar],
         rcat [rlit "777-2", dig2, rlit "LR", dstar]], "777-200LR", "Boeing"),
  (ralt [rcat [rlit "777-200", dstar], rcat [rlit "777-2", dig2, dstar]], "777-200", "Boeing"),
  (rcat [rlit "777", dstar], "777", "Boeing"),
  (ralt [rcat [rlit "787-10", dstar],
         rcat [rlit "787", dstar, rlit "10", dstar]], "787-10", "Boeing"),
  (ralt [rcat [rlit "787-9", dstar],
         rcat [rlit "787", dstar, rlit "9", dstar]], "787-9", "Boeing"),
  (ralt [rcat [rlit "787-8", dstar],
         rcat [rlit "787", dstar, rlit "8", dstar]], "787-8", "Boeing"),
  (rcat [rlit "787", dstar], "787", "Boeing")]

/-- McDonnell Douglas rules (normalizer lines 213-224). -/
def patternsMD : List (Re × String × String) := [
  (rcat [rlit "MD", ropt "-", rlit "11", dstar], "MD-11", "McDonnell Douglas"),
  (rcat [rlit "MD", ropt "-", rlit "90", dstar], "MD-90", "McDonnell Douglas"),
  (rcat [rlit "MD", ropt "-", rlit "88", dstar], "MD-88", "McDonnell Douglas"),
  (rcat [rlit "MD", ropt "-", rlit "87", dstar], "MD-87", "McDonnell Douglas"),
  (rcat [rlit "MD", ropt "-", rlit "83", dstar], "MD-83", "McDonnell Douglas"),
  (rcat [rlit "MD", ropt "-", rlit "82", dstar], "MD-82", "McDonnell Douglas"),
  (rcat [rlit "MD", ropt "-", rlit "81", dstar], "MD-81", "McDonnell Douglas"),
  (rcat [rlit "MD", ropt "-", rlit "80", dstar], "MD-80", "McDonnell Douglas"),
  (rcat [rlit "DC", ropt "-", rlit "10", dstar], "DC-10", "McDonnell Douglas"),
  (rcat [rlit "DC", ropt "-", rlit "9", dstar], "DC-9", "McDonnell Douglas"),
  (rcat [rlit "DC", ropt "-", rlit "8", dstar], "DC-8", "McDonnell Douglas")]

/-- Embraer rules (normalizer lines 226-241). -/
def patternsEmbraer : List (Re × String × String) := [
  (ralt [rcat [rlit "E195-E2", dstar],
         rcat [rlit "E195", dstar, rlit "E2", dstar],
         rcat [rlit "ERJ", dstar, rlit "195", dstar, rlit "E2", dstar],
         rcat [rlit "190-400", dstar]], "E195-E2", "Embraer"),
  (ralt [rcat [rlit "E190-E2", dstar],
         rcat [rlit "E190", dstar, rlit "E2", dstar],
         rcat [rlit "ERJ", dstar, rlit "190", dstar, rlit "E2", dstar],
         rcat [rlit "190-300", dstar]], "E190-E2", "Embraer"),
  (ralt [rcat [rlit "E175-E2", dstar],
         rcat [rlit "E175", dstar, rlit "E2", dstar],
         rcat [rlit "ERJ", dstar, rlit "175", dstar, rlit "E2", dstar]], "E175-E2", "Embraer"),
  (ralt [rcat [rlit "E195", dstar], rcat [rlit "ERJ", dstar, rlit "195", dstar],
         rcat [rlit "EMB", dstar, rlit "195", dstar]], "E195", "Embraer"),
  (ralt [rcat [rlit "E190", dstar], rcat [rlit "ERJ", dstar, rlit "190", dstar],
         rcat [rlit "EMB", dstar, rlit "190", dstar]], "E190", "Embraer"),
  (ralt [rcat [rlit "E175", dstar], rcat [rlit "ERJ", dstar, rlit "175", dstar],
         rcat [rlit "EMB", dstar, rlit "175", dstar]], "E175", "Embraer"),
  (ralt [rcat [rlit "E170", dstar], rcat [rlit "ERJ", dstar, rlit "170", dstar],
         rcat [rlit "EMB", dstar, rlit "170", dstar]], "E170", "Embraer"),
  (ralt [rcat [rlit "ERJ", dstar, rlit "145", dstar],
         rcat [rlit "EMB", dstar, rlit "145", dstar],
         rcat [rlit "E145", dstar]], "ERJ-145", "Embraer"),
  (ralt [rcat [rlit "ERJ", dstar, rlit "140", dstar],
         rcat [rlit "EMB", dstar, rlit "140", dstar],
         rcat [rlit "E140", dstar]], "ERJ-140", "Embraer"),
  (ralt [rcat [rlit "ERJ", dstar, rlit "135", dstar],
         rcat [rlit "EMB", dstar, rlit "135", dstar],
         rcat [rlit "E135", dstar]], "ERJ-135", "Embraer")]

/-- Bombardier CRJ and Dash 8 rules (normalizer lines 243-258). -/
def patternsBombardier : List (Re × String × String) := [
  (ralt [rcat [rlit "CRJ", dstar, rlit "1000", dstar],
         rcat [rlit "CL", ropt "-", rlit "600", dstar, rlit "2E25", dstar]],
    "CRJ-1000", "Bombardier"),
  (ralt [rcat [rlit "CRJ", dstar, rlit "900", dstar],
         rcat [rlit "CL", ropt "-", rlit "600", dstar, rlit "2D24", dstar]],
    "CRJ-900", "Bombardier"),
  (ralt [rcat [rlit "CRJ", dstar, rlit "700", dstar],
         rcat [rlit "CL", ropt "-", rlit "600", dstar, rlit "2C10", dstar]],
    "CRJ-700", "Bombardier"),
  (rcat [rlit "CRJ", dstar, rlit "550", dstar], "CRJ-550", "Bombardier"),
  (ralt [rcat [rlit "CRJ", dstar, rlit "200", dstar],
         rcat [rlit "CL", ropt "-", rlit "600", dstar, rlit "2B19", dstar]],
    "CRJ-200", "Bombardier"),
  (rcat [rlit "CRJ", dstar, rlit "100", dstar], "CRJ-100", "Bombardier"),
  (rcat [rlit "CRJ", dstar], "CRJ", "Bombardier"),
  (ralt [rcat [rlit "DHC", ropt "-", rlit "8", dstar, rlit "400", dstar],
         rcat [rlit "Q400", dstar],
         rcat [rlit "DASH", wss, rlit "8", dstar, rlit "400", dstar]],
    "Dash 8-400", "De Havilland Canada"),
  (ralt [rcat [rlit "DHC", ropt "-", rlit "8", dstar, rlit "300", dstar],
         rcat [rlit "Q300", dstar],
         rcat [rlit "DASH", wss, rlit "8", dstar, rlit "300", dstar]],
    "Dash 8-300", "De Havilland Canada"),
  (ralt [rcat [rlit "DHC", ropt "-", rlit "8", dstar, rlit "200", dstar],
         rcat [rlit "Q200", dstar],
         rcat [rlit "DASH", wss, rlit "8", dstar, rlit "200", dstar]],
    "Dash 8-200", "De Havilland Canada"),
  (ralt [rcat [rlit "DHC", ropt "-", rlit "8", dstar, rlit "100", dstar],
         rcat [rlit "Q100", dstar],
         rcat [rlit "DASH", wss, rlit "8", dstar, rlit "100", dstar]],
    "Dash 8-100", "De Havilland Canada"),
  (ralt [rcat [rlit "DHC", ropt "-", rlit "8", dstar],
         rcat [rlit "DASH", wss, rlit "8", dstar]], "Dash 8", "De Havilland Canada")]

/-- ATR rules (normalizer lines 260-262). -/
def patternsATR : List (Re × String × String) := [
  (rcat [rlit "ATR", dstar, rlit "72", dstar], "ATR 72", "ATR"),
  (rcat [rlit "ATR", dstar, rlit "42", dstar], "ATR 42", "ATR")]

/-- Cessna jet and prop rules (normalizer lines 264-285). -/
def patternsCessna : List (Re × String × String) := [
  (ralt [rcat [rlit "CITATION", wss, rlit "X", Re.opt (Re.chr '+'), dstar],
         rcat [ropt "C", rlit "750", dstar]], "Citation X", "Cessna"),
  (ralt [rcat [rlit "CITATION", wss, rlit "SOVEREIGN", dstar],
         rcat [ropt "C", rlit "680", dstar]], "Citation Sovereign", "Cessna"),
  (ralt [rcat [rlit "CITATION", wss, rlit "LATITUDE", dstar],
         rcat [ropt "C", rlit "680A", dstar]], "Citation Latitude", "Cessna"),
  (ralt [rcat [rlit "CITATION", wss, rlit "LONGITUDE", dstar],
         rcat [ropt "C", rlit "700", dstar]], "Citation Longitude", "Cessna"),
  (ralt [rcat [rlit "CITATION", wss, rlit "EXCEL", dstar],
         rcat [ropt "C", rlit "560XL", dstar]], "Citation Excel", "Cessna"),
  (ralt [rcat [rlit "CITATION", wss, rlit "CJ4", dstar],
         rcat [ropt "C", rlit "525C", dstar]], "Citation CJ4", "Cessna"),
  (ralt [rcat [rlit "CITATION", wss, rlit "CJ3", dstar],
         rcat [ropt "C", rlit "525B", dstar]], "Citation CJ3", "Cessna"),
  (ralt [rcat [rlit "CITATION", wss, rlit "CJ2", dstar],
         rcat [ropt "C", rlit "525A", dstar]], "Citation CJ2", "Cessna"),
  (ralt [rcat [rlit "CITATION", wss, rlit "CJ1", dstar],
         rcat [ropt "C", rlit "525", dstar]], "Citation CJ1", "Cessna"),
  (ralt [rcat [rlit "CITATION", wss, rlit "MUSTANG", dstar],
         rcat [ropt "C", rlit "510", dstar]], "Citation Mustang", "Cessna"),
  (rcat [rlit "CITATION", wss, rlit "M2", dstar], "Citation M2", "Cessna"),
  (rcat [rlit "CITATION", dstar], "Citation", "Cessna"),
  (ralt [rcat [Re.opt (rcat [rlit "CESSNA", wss]), rlit "172", dstar],
         rcat [rlit "C172", dstar]], "172 Skyhawk", "Cessna"),
  (ralt [rcat [Re.opt (rcat [rlit "CESSNA", wss]), rlit "182", dstar],
         rcat [rlit "C182", dstar]], "182 Skylane", "Cessna"),
  (ralt [rcat [Re.opt (rcat [rlit "CESSNA", wss]), rlit "206", dstar],
         rcat [rlit "C206", dstar], rcat [rlit "T206", dstar],
         rcat [rlit "U206", dstar]], "206 Stationair", "Cessna"),
  (ralt [rcat [Re.opt (rcat [rlit "CESSNA", wss]), rlit "208", dstar],
         rcat [rlit "C208", dstar, rlit "CARAVAN", dstar],
         rcat [rlit "CARAVAN", dstar]], "208 Caravan", "Cessna"),
  (ralt [rcat [Re.opt (rcat [rlit "CESSNA", wss]), rlit "210", dstar],
         rcat [rlit "C210", dstar], rcat [rlit "T210", dstar]], "210 Centurion", "Cessna"),
  (ralt [rcat [Re.opt (rcat [rlit "CESSNA", wss]), rlit "150", dstar],
         rcat [rlit "C150", dstar]], "150", "Cessna"),
  (ralt [rcat [Re.opt (rcat [rlit "CESSNA", wss]), rlit "152", dstar],
         rcat [rlit "C152", dstar]], "152", "Cessna")]

/-- Piper rules (normalizer lines 287-302). -/
def patternsPiper : List (Re × String × String) := [
  (ralt [rcat [rlit "PA", ropt "-", rlit "28", dstar, rlit "CHEROKEE", dstar],
         rcat [rlit "CHEROKEE", dstar]], "Cherokee", "Piper"),
  (ralt [rcat [rlit "PA", ropt "-", rlit "28", dstar, rlit "WARRIOR", dstar],
         rcat [rlit "WARRIOR", dstar]], "Warrior", "Piper"),
  (ralt [rcat [rlit "PA", ropt "-", rlit "28", dstar, rlit "ARCHER", dstar],
         rcat [rlit "ARCHER", dstar]], "Archer", "Piper"),
  (ralt [rcat [rlit "PA", ropt "-", rlit "28", dstar, rlit "ARROW", dstar],
         rcat [rlit "ARROW", dstar]], "Arrow", "Piper"),
  (rcat [rlit "PA", ropt "-", rlit "28", dstar], "PA-28", "Piper"),
  (ralt [rcat [rlit "PA", ropt "-", rlit "32", dstar, rlit "SARATOGA", dstar],
         rcat [rlit "SARATOGA", dstar]], "Saratoga", "Piper"),
  (ralt [rcat [rlit "PA", ropt "-", rlit "32", dstar, rlit "LANCE", dstar],
         rcat [rlit "LANCE", dstar]], "Lance", "Piper"),
  (ralt [rcat [rlit "PA", ropt "-", rlit "32", dstar, rlit "CHEROKEE", wss, rlit "SIX", dstar],
         rcat [rlit "CHEROKEE", wss, rlit "SIX", dstar]], "Cherokee Six", "Piper"),
  (rcat [rlit "PA", ropt "-", rlit "32", dstar], "PA-32", "Piper"),
  (ralt [rcat [rlit "PA", ropt "-", rlit "34", dstar, rlit "SENECA", dstar],
         rcat [rlit "SENECA", dstar]], "Seneca", "Piper"),
  (rcat [rlit "PA", ropt "-", rlit "34", dstar], "PA-34", "Piper"),
  (ralt [rcat [rlit "PA", ropt "-", rlit "44", dstar, rlit "SEMINOLE", dstar],
         rcat [rlit "SEMINOLE", dstar]], "Seminole", "Piper"),
  (ralt [rcat [rlit "PA", ropt "-", rlit "46", dstar, rlit "MALIBU", dstar],
         rcat [rlit "MALIBU", dstar], rcat [rlit "M350", dstar],
         rcat [rlit "M500", dstar], rcat [rlit "M600", dstar]], "Malibu", "Piper"),
  (rcat [rlit "PA", ropt "-", rlit "46", dstar], "PA-46", "Piper"),
  (ralt [rcat [rlit "CUB", dstar],
         rcat [rlit "PA", ropt "-", rlit "18", dstar]], "Cub", "Piper")]

/-- Cirrus and Pilatus rules (normalizer lines 304-315). -/
def patternsCirrusPilatus : List (Re × String × String) := [
  (rcat [rlit "SR22", ropt "T", dstar, rlit "G6", dstar], "SR22 G6", "Cirrus"),
  (rcat [rlit "SR22T", dstar], "SR22T", "Cirrus"),
  (rcat [rlit "SR22", dstar], "SR22", "Cirrus"),
  (rcat [rlit "SR20", dstar], "SR20", "Cirrus"),
  (ralt [rcat [rlit "SF50", dstar],
         rcat [rlit "VISION", wss, rlit "JET", dstar]], "Vision Jet", "Cirrus"),
  (rcat [rlit "PC", ropt "-", rlit "24", dstar], "PC-24", "Pilatus"),
  (rcat [rlit "PC", ropt "-", rlit "12", dstar], "PC-12", "Pilatus"),
  (rcat [rlit "PC", ropt "-", rlit "6", dstar], "PC-6", "Pilatus")]

/-- Beechcraft rules (normalizer lines 317-325). -/
def patternsBeechcraft : List (Re × String × String) := [
  (ralt [rcat [rlit "KING", wss, rlit "AIR", wss, rlit "350", dstar],
         rcat [rlit "B350", dstar], rcat [rlit "BE350", dstar],
         rcat [rlit "C-12", dstar]], "King Air 350", "Beechcraft"),
  (ralt [rcat [rlit "KING", wss, rlit "AIR", wss, rlit "250", dstar],
         rcat [rlit "B250", dstar], rcat [rlit "BE250", dstar]], "King Air 250", "Beechcraft"),
  (ralt [rcat [rlit "KING", wss, rlit "AIR", wss, rlit "200", dstar],
         rcat [rlit "B200", dstar], rcat [rlit "BE200", dstar]], "King Air 200", "Beechcraft"),
  (ralt [rcat [rlit "KING", wss, rlit "AIR", wss, rlit "90", dstar],
         rcat [rlit "C90", dstar],
         rcat [rlit "BE9", Re.opt dig, dstar]], "King Air 90", "Beechcraft"),
  (rcat [rlit "KING", wss, rlit "AIR", dstar], "King Air", "Beechcraft"),
  (ralt [rcat [rlit "BONANZA", dstar], rcat [rlit "V35", dstar], rcat [rlit "A36", dstar],
         rcat [rlit "G36", dstar], rcat [rlit "BE35", dstar],
         rcat [rlit "BE36", dstar]], "Bonanza", "Beechcraft"),
  (ralt [rcat [rlit "BARON", dstar], rcat [rlit "BE58", dstar],
         rcat [rlit "BE55", dstar]], "Baron", "Beechcraft"),
  (ralt [rcat [rlit "PREMIER", dstar], rcat [rlit "BE390", dstar]], "Premier", "Beechcraft")]

/-- Gulfstream rules (normalizer lines 327-337). -/
def patternsGulfstream : List (Re × String × String) := [
  (ralt [rcat [rlit "G700", dstar], rcat [rlit "GVII", dstar]], "G700", "Gulfstream"),
  (ralt [rcat [rlit "G650", dstar], rcat [rlit "GVI", dstar]], "G650", "Gulfstream"),
  (ralt [rcat [rlit "G600", dstar],
         rcat [rlit "G", ropt "-", rlit "VI", dstar]], "G600", "Gulfstream"),
  (ralt [rcat [rlit "G550", dstar],
         rcat [rlit "GV", dstar, rlit "550", dstar]], "G550", "Gulfstream"),
  (rcat [rlit "G500", dstar], "G500", "Gulfstream"),
  (ralt [rcat [rlit "G450", dstar],
         rcat [rlit "GIV", dstar, rlit "450", dstar]], "G450", "Gulfstream"),
  (rcat [rlit "G280", dstar], "G280", "Gulfstream"),
  (ralt [rcat [rlit "GV", Re.nlk (rlit "I"), dstar],
         rcat [rlit "G", ropt "-", rlit "V", Re.nlk (rlit "I"), dstar]], "G-V", "Gulfstream"),
  (ralt [rcat [rlit "GIV", dstar],
         rcat [rlit "G", ropt "-", rlit "IV", dstar]], "G-IV", "Gulfstream"),
  (ralt [rcat [rlit "GIII", dstar],
         rcat [rlit "G", ropt "-", rlit "III", dstar]], "G-III", "Gulfstream")]

/-- Dassault Falcon rules (normalizer lines 339-346). -/
def patternsDassault : List (Re × String × String) := [
  (rcat [rlit "FALCON", wss, rlit "10X", dstar], "Falcon 10X", "Dassault"),
  (rcat [rlit "FALCON", wss, rlit "8X", dstar], "Falcon 8X", "Dassault"),
  (rcat [rlit "FALCON", wss, rlit "7X", dstar], "Falcon 7X", "Dassault"),
  (rcat [rlit "FALCON", wss, rlit "900", dstar], "Falcon 900", "Dassault"),
  (rcat [rlit "FALCON", wss, rlit "2000", dstar], "Falcon 2000", "Dassault"),
  (rcat [rlit "FALCON", wss, rlit "50", dstar], "Falcon 50", "Dassault"),
  (rcat [rlit "FALCON", dstar], "Falcon", "Dassault")]

/-- Learjet rules (normalizer lines 348-356). -/
def patternsLearjet : List (Re × String × String) := [
  (ralt [rcat [rlit "LEARJET", wss, rlit "75", dstar], rcat [rlit "LJ75", dstar]],
    "Learjet 75", "Learjet"),
  (ralt [rcat [rlit "LEARJET", wss, rlit "70", dstar], rcat [rlit "LJ70", dstar]],
    "Learjet 70", "Learjet"),
  (ralt [rcat [rlit "LEARJET", wss, rlit "60", dstar], rcat [rlit "LJ60", dstar]],
    "Learjet 60", "Learjet"),
  (ralt [rcat [rlit "LEARJET", wss, rlit "45", dstar], rcat [rlit "LJ45", dstar]],
    "Learjet 45", "Learjet"),
  (ralt [rcat [rlit "LEARJET", wss, rlit "40", dstar], rcat [rlit "LJ40", dstar]],
    "Learjet 40", "Learjet"),
  (ralt [rcat [rlit "LEARJET", wss, rlit "35", dstar], rcat [rlit "LJ35", dstar]],
    "Learjet 35", "Learjet"),
  (ralt [rcat [rlit "LEARJET", wss, rlit "31", dstar], rcat [rlit "LJ31", dstar]],
    "Learjet 31", "Learjet"),
  (rcat [rlit "LEARJET", dstar], "Learjet", "Learjet")]

/-- Diamond rules (normalizer lines 358-362). -/
def patternsDiamond : List (Re × String × String) := [
  (rcat [rlit "DA", ropt "-", rlit "62", dstar], "DA62", "Diamond"),
  (rcat [rlit "DA", ropt "-", rlit "42", dstar], "DA42", "Diamond"),
  (rcat [rlit "DA", ropt "-", rlit "40", dstar], "DA40", "Diamond"),
  (rcat [rlit "DA", ropt "-", rlit "20", dstar], "DA20", "Diamond")]

/-- Helicopter rules (normalizer lines 364-397). -/
def patternsHelicopters : List (Re × String × String) := [
  (rcat [rlit "R44", dstar], "R44", "Robinson"),
  (rcat [rlit "R22", dstar], "R22", "Robinson"),
  (rcat [rlit "R66", dstar], "R66", "Robinson"),
  (ralt [rcat [rlit "BELL", wss, rlit "206", dstar], rcat [rlit "206B", dstar],
         rcat [rlit "JETRANGER", dstar]], "206 JetRanger", "Bell"),
  (ralt [rcat [rlit "BELL", wss, rlit "407", dstar], rcat [rlit "407", dstar]], "407", "Bell"),
  (ralt [rcat [rlit "BELL", wss, rlit "412", dstar], rcat [rlit "412", dstar]], "412", "Bell"),
  (ralt [rcat [rlit "BELL", wss, rlit "429", dstar], rcat [rlit "429", dstar]], "429", "Bell"),
  (ralt [rcat [rlit "BELL", wss, rlit "505", dstar], rcat [rlit "505", dstar]], "505", "Bell"),
  (ralt [rcat [rlit "BELL", wss, rlit "525", dstar], rcat [rlit "525", dstar]],
    "525 Relentless", "Bell"),
  (ralt [rcat [rlit "H125", dstar], rcat [rlit "AS350", dstar],
         rcat [rlit "ECUREUIL", dstar], rcat [rlit "ASTAR", dstar]],
    "H125", "Airbus Helicopters"),
  (ralt [rcat [rlit "H130", dstar], rcat [rlit "EC130", dstar]], "H130", "Airbus Helicopters"),
  (ralt [rcat [rlit "H135", dstar], rcat [rlit "EC135", dstar]], "H135", "Airbus Helicopters"),
  (ralt [rcat [rlit "H145", dstar], rcat [rlit "EC145", dstar],
         rcat [rlit "BK117", dstar]], "H145", "Airbus Helicopters"),
  (rcat [rlit "H160", dstar], "H160", "Airbus Helicopters"),
  (ralt [rcat [rlit "H175", dstar], rcat [rlit "EC175", dstar]], "H175", "Airbus Helicopters"),
  (ralt [rcat [rlit "H215", dstar], rcat [rlit "AS332", dstar],
         rcat [rlit "SUPER", wss, rlit "PUMA", dstar]], "H215", "Airbus Helicopters"),
  (ralt [rcat [rlit "H225", dstar], rcat [rlit "EC225", dstar]], "H225", "Airbus Helicopters"),
  (rcat [rlit "S", ropt "-", rlit "76", dstar], "S-76", "Sikorsky"),
  (rcat [rlit "S", ropt "-", rlit "92", dstar], "S-92", "Sikorsky"),
  (ralt [rcat [rlit "S", ropt "-", rlit "70", dstar],
         rcat [rlit "UH", ropt "-", rlit "60", dstar],
         rcat [rlit "BLACK", wss, rlit "HAWK", dstar]], "S-70/UH-60", "Sikorsky"),
  (rcat [rlit "AW139", dstar], "AW139", "Leonardo"),
  (rcat [rlit "AW109", dstar], "AW109", "Leonardo"),
  (rcat [rlit "AW169", dstar], "AW169", "Leonardo"),
  (rcat [rlit "AW189", dstar], "AW189", "Leonardo")]

/-- The full ordered rule table, in source order. -/
def AIRCRAFT_PATTERNS : List (Re × String × String) :=
  patternsAirbus ++ patterns737 ++ patternsBoeingWide ++ patternsMD ++
  patternsEmbraer ++ patternsBombardier ++ patternsATR ++ patternsCessna ++
  patternsPiper ++ patternsCirrusPilatus ++ patternsBeechcraft ++
  patternsGulfstream ++ patternsDassault ++ patternsLearjet ++
  patternsDiamond ++ patternsHelicopters

/-- `MANUFACTURER_ALIASES` (normalizer lines 12-90). -/
def MANUFACTURER_ALIASES : List (String × String) := [
  ("AIRBUS", "Airbus"),
  ("AIRBUS INDUSTRIE", "Airbus"),
  ("THE BOEING COMPANY", "Boeing"),
  ("BOEING", "Boeing"),
  ("BOEING COMPANY", "Boeing"),
  ("EMBRAER", "Embraer"),
  ("EMBRAER S.A.", "Embraer"),
  ("EMBRAER-EMPRESA BRASILEIRA DE AERONAUTICA", "Embraer"),
  ("BOMBARDIER", "Bombardier"),
  ("BOMBARDIER INC", "Bombardier"),
  ("BOMBARDIER INC.", "Bombardier"),
  ("CESSNA", "Cessna"),
  ("CESSNA AIRCRAFT", "Cessna"),
  ("CESSNA AIRCRAFT COMPANY", "Cessna"),
  ("TEXTRON AVIATION", "Cessna"),
  ("TEXTRON AVIATION INC", "Cessna"),
  ("TEXTRON AVIATION INC.", "Cessna"),
  ("PIPER", "Piper"),
  ("PIPER AIRCRAFT", "Piper"),
  ("PIPER AIRCRAFT INC", "Piper"),
  ("PIPER AIRCRAFT, INC.", "Piper"),
  ("CIRRUS", "Cirrus"),
  ("CIRRUS DESIGN", "Cirrus"),
  ("CIRRUS DESIGN CORP", "Cirrus"),
  ("CIRRUS DESIGN CORPORATION", "Cirrus"),
  ("BEECH", "Beechcraft"),
  ("BEECHCRAFT", "Beechcraft"),
  ("BEECH AIRCRAFT", "Beechcraft"),
  ("BEECH AIRCRAFT CORP", "Beechcraft"),
  ("HAWKER BEECHCRAFT", "Beechcraft"),
  ("HAWKER BEECHCRAFT CORP", "Beechcraft"),
  ("RAYTHEON AIRCRAFT", "Beechcraft"),
  ("RAYTHEON AIRCRAFT COMPANY", "Beechcraft"),
  ("GULFSTREAM", "Gulfstream"),
  ("GULFSTREAM AEROSPACE", "Gulfstream"),
  ("GULFSTREAM AEROSPACE CORP", "Gulfstream"),
  ("DASSAULT", "Dassault"),
  ("DASSAULT AVIATION", "Dassault"),
  ("DASSAULT-BREGUET", "Dassault"),
  ("LEARJET", "Learjet"),
  ("LEARJET INC", "Learjet"),
  ("MCDONNELL DOUGLAS", "McDonnell Douglas"),
  ("MCDONNELL DOUGLAS CORPORATION", "McDonnell Douglas"),
  ("LOCKHEED", "Lockheed"),
  ("LOCKHEED MARTIN", "Lockheed"),
  ("LOCKHEED CORPORATION", "Lockheed"),
  ("ATR", "ATR"),
  ("ATR - GIE AVIONS DE TRANSPORT REGIONAL", "ATR"),
  ("AVIONS DE TRANSPORT REGIONAL", "ATR"),
  ("DE HAVILLAND", "De Havilland"),
  ("DE HAVILLAND CANADA", "De Havilland Canada"),
  ("DIAMOND", "Diamond"),
  ("DIAMOND AIRCRAFT", "Diamond"),
  ("DIAMOND AIRCRAFT INDUSTRIES", "Diamond"),
  ("MOONEY", "Mooney"),
  ("MOONEY AIRCRAFT", "Mooney"),
  ("MOONEY INTERNATIONAL", "Mooney"),
  ("PILATUS", "Pilatus"),
  ("PILATUS AIRCRAFT", "Pilatus"),
  ("PILATUS AIRCRAFT LTD", "Pilatus"),
  ("ROBINSON", "Robinson"),
  ("ROBINSON HELICOPTER", "Robinson"),
  ("ROBINSON HELICOPTER COMPANY", "Robinson"),
  ("BELL", "Bell"),
  ("BELL HELICOPTER", "Bell"),
  ("BELL TEXTRON", "Bell"),
  ("SIKORSKY", "Sikorsky"),
  ("SIKORSKY AIRCRAFT", "Sikorsky"),
  ("EUROCOPTER", "Airbus Helicopters"),
  ("AIRBUS HELICOPTERS", "Airbus Helicopters"),
  ("LEONARDO", "Leonardo"),
  ("LEONARDO HELICOPTERS", "Leonardo"),
  ("AGUSTA", "Leonardo"),
  ("AGUSTAWESTLAND", "Leonardo"),
  ("DAHER", "Daher"),
  ("DAHER-SOCATA", "Daher"),
  ("SOCATA", "Daher")]

/-- `normalize_manufacturer` (normalizer lines 93-98): alias-table lookup on
the uppercased, stripped name; unknown manufacturers pass through stripped. -/
def normalize_manufacturer (manufacturer : Option String) : Option String :=
  match truthyStr manufacturer with
  | none => none
  | some m =>
    let key := pyStrip (pyUpper m)
    match (MANUFACTURER_ALIASES.find? (fun p => p.1 == key)).map Prod.snd with
    | some canon => some canon
    | none => some (pyStrip m)

/-- `re.sub(r'\s+', ' ', s)`: collapse every whitespace run to one space.
The Boolean argument records whether the previous character was whitespace. -/
def squishWs : Bool → List Char → List Char
  | _, [] => []
  | prev, c :: t =>
    if isPySpace c then
      if prev then squishWs true t else ' ' :: squishWs true t
    else c :: squishWs false t

/-- `re.sub(r'\s+', ' ', s).strip()` (normalizer lines 440 and 443). -/
def cleanWs (s : String) : String :=
  pyStrip (String.mk (squishWs false s.data))

/-- First-match-wins walk over the ordered rule table (normalizer lines 429-435):
try `fullmatch` then `search` for each rule in order. -/
def firstRule (subject : List Char) :
    List (Re × String × String) → Option (String × String)
  | [] => none
  | (re, canonical, ovr) :: rest =>
    if reFullmatch re subject || reSearch re subject then some (canonical, ovr)
    else firstRule subject rest

/-- `normalize_aircraft_type` (normalizer lines 407-449). -/
def normalize_aircraft_type (manufacturer aircraft_type icao_type : Option String) : String :=
  let norm_mfr := normalize_manufacturer manufacturer
  let type_str : String := (pyOrS (pyOrS aircraft_type icao_type) (some "")).getD ""
  match firstRule type_str.data AIRCRAFT_PATTERNS with
  | some (canonical, ovr) =>
    match truthyStr (pyOrS (some ovr) norm_mfr) with
    | some final_mfr => final_mfr ++ " " ++ canonical
    | none => canonical
  | none =>
    if (truthyStr norm_mfr).isSome && !type_str.isEmpty then
      ((truthyStr norm_mfr).getD "") ++ " " ++ cleanWs type_str
    else if !type_str.isEmpty then
      cleanWs type_str
    else
      match truthyStr icao_type with
      | some icao =>
        match truthyStr norm_mfr with
        | some m => m ++ " " ++ icao
        | none => icao
      | none => "Unknown"

/-- "Empty/absent" for an optional string input: `None` or `""`. -/
def optEmpty (o : Option String) : Prop := o = none ∨ o = some ""

/-! ## Association-list (dict) lemmas -/

theorem lookupA_updateA_self (s : List (String × Entry)) (h : String) (e : Entry) :
    lookupA (updateA s h e) h = some e := by
  induction s with
  | nil => simp [updateA, lookupA]
  | cons p t ih =>
    obtain ⟨k, v⟩ := p
    by_cases hk : k = h
    · simp [updateA, hk, lookupA]
    · simp [updateA, hk, lookupA, ih]

theorem lookupA_updateA_ne (s : List (String × Entry)) {g h : String} (e : Entry)
    (hne : g ≠ h) : lookupA (updateA s g e) h = lookupA s h := by
  induction s with
  | nil => simp [updateA, lookupA, hne]
  | cons p t ih =>
    obtain ⟨k, v⟩ := p
    by_cases hk : k = g
    · subst hk
      simp [updateA, lookupA, hne]
    · by_cases hkh : k = h
      · subst hkh
        simp [updateA, lookupA, hk]
      · simp [updateA, lookupA, hk, hkh, ih]

theorem mem_keysA_updateA {s : List (String × Entry)} {g x : String} {e : Entry}
    (hx : x ∈ keysA (updateA s g e)) : x ∈ keysA s ∨ x = g := by
  induction s with
  | nil =>
    simp [updateA, keysA] at hx
    exact Or.inr hx
  | cons p t ih =>
    obtain ⟨k, v⟩ := p
    by_cases hk : k = g
    · simp [updateA, hk, keysA] at hx
      rcases hx with hx | hx
      · exact Or.inr hx
      · exact Or.inl (by simp [keysA, hx])
    · simp [updateA, hk, keysA] at hx
      rcases hx with hx | hx
      · exact Or.inl (by simp [keysA, hx])
      · rcases ih (by simpa [keysA] using hx) with h' | h'
        · exact Or.inl (by simp [keysA] at h' ⊢; exact Or.inr h')
        · exact Or.inr h'

theorem nodup_keysA_updateA {s : List (String × Entry)} (g : String) (e : Entry)
    (hs : (keysA s).Nodup) : (keysA (updateA s g e)).Nodup := by
  induction s with
  | nil => simp [updateA, keysA]
  | cons p t ih =>
    obtain ⟨k, v⟩ := p
    have hs' : k ∉ keysA t ∧ (keysA t).Nodup := List.nodup_cons.mp hs
    by_cases hk : k = g
    · subst hk
      simpa [updateA, keysA] using hs
    · have hstep : updateA ((k, v) :: t) g e = (k, v) :: updateA t g e := by
        simp [updateA, hk]
      rw [hstep]
      refine List.nodup_cons.mpr ⟨?_, ih hs'.2⟩
      intro hmem
      rcases mem_keysA_updateA hmem with h' | h'
      · exact hs'.1 h'
      · exact hk h'

theorem lookupA_filter_of_keep {s : List (String × Entry)} {h : String} {e : Entry}
    (p : String × Entry → Bool) (hl : lookupA s h = some e) (hp : p (h, e) = true) :
    lookupA (s.filter p) h = some e := by
  induction s with
  | nil => simp [lookupA] at hl
  | cons q t ih =>
    obtain ⟨k, v⟩ := q
    by_cases hk : k = h
    · subst hk
      simp [lookupA] at hl
      subst hl
      simp [List.filter, hp, lookupA]
    · simp [lookupA, hk] at hl
      cases hq : p (k, v) <;> simp [List.filter, hq, lookupA, hk, ih hl]

theorem lookupA_filter_none {s : List (String × Entry)} {h : String}
    (p : String × Entry → Bool) (hl : lookupA s h = none) :
    lookupA (s.filter p) h = none := by
  induction s with
  | nil => simp [lookupA]
  | cons q t ih =>
    obtain ⟨k, v⟩ := q
    by_cases hk : k = h
    · subst hk
      simp [lookupA] at hl
    · simp [lookupA, hk] at hl
      cases hq : p (k, v) <;> simp [List.filter, hq, lookupA, hk, ih hl]

theorem lookupA_eq_some_mem_keysA {s : List (String × Entry)} {h : String} {e : Entry}
    (hl : lookupA s h = some e) : h ∈ keysA s := by
  induction s with
  | nil => simp [lookupA] at hl
  | cons q t ih =>
    obtain ⟨k, v⟩ := q
    by_cases hk : k = h
    · simp [keysA, hk]
    · simp [lookupA, hk] at hl
      simp [keysA] at ih ⊢
      exact Or.inr (ih hl)

theorem lookupA_filter_of_drop {s : List (String × Entry)} {h : String} {e : Entry}
    (p : String × Entry → Bool) (hnd : (keysA s).Nodup)
    (hl : lookupA s h = some e) (hp : p (h, e) = false) :
    lookupA (s.filter p) h = none := by
  induction s with
  | nil => simp [lookupA]
  | cons q t ih =>
    obtain ⟨k, v⟩ := q
    have hnd' : k ∉ keysA t ∧ (keysA t).Nodup := List.nodup_cons.mp hnd
    by_cases hk : k = h
    · subst hk
      simp [lookupA] at hl
      subst hl
      have ht : lookupA t k = none := by
        cases hlt : lookupA t k with
        | none => rfl
        | some w => exact absurd (lookupA_eq_some_mem_keysA hlt) hnd'.1
      simp [List.filter, hp, lookupA_filter_none p ht]
    · simp [lookupA, hk] at hl
      cases hq : p (k, v) <;> simp [List.filter, hq, lookupA, hk, ih hnd'.2 hl]

theorem lookupA_filter_keepAll {s : List (String × Entry)} {h : String}
    (p : String × Entry → Bool) (hall : ∀ e, p (h, e) = true) :
    lookupA (s.filter p) h = lookupA s h := by
  induction s with
  | nil => simp [lookupA]
  | cons q t ih =>
    obtain ⟨k, v⟩ := q
    by_cases hk : k = h
    · subst hk
      simp [List.filter, hall v, lookupA]
    · cases hq : p (k, v) <;> simp [List.filter, hq, lookupA, hk, ih]

theorem nodup_keysA_filter {s : List (String × Entry)} (p : String × Entry → Bool)
    (hs : (keysA s).Nodup) : (keysA (s.filter p)).Nodup := by
  have hsub : List.Sublist (keysA (s.filter p)) (keysA s) :=
    List.Sublist.map Prod.fst (List.filter_sublist s)
  exact hs.sublist hsub

theorem batchHexes_contains_iff (b : List Snapshot) (h : String) :
    (batchHexes b).contains h = true ↔ ∃ ac ∈ b, effHexU ac = some h := by
  have hmem : (batchHexes b).contains h = true ↔ h ∈ batchHexes b := List.elem_iff
  rw [hmem, batchHexes, List.mem_filterMap]

theorem mem_batchHexes_iff (b : List Snapshot) (h : String) :
    h ∈ batchHexes b ↔ ∃ ac ∈ b, effHexU ac = some h := by
  rw [batchHexes, List.mem_filterMap]

theorem pyOrS_isSome (a : Option String) {b : Option String} (hb : b.isSome) :
    (pyOrS a b).isSome := by
  cases a with
  | none => simpa [pyOrS] using hb
  | some s =>
    by_cases hs : s.isEmpty
    · simpa [pyOrS, hs] using hb
    · simp [pyOrS, hs]

theorem lookupA_updateA_isSome {s : List (String × Entry)} {h : String} (g : String)
    (e : Entry) (hs : (lookupA s h).isSome) : (lookupA (updateA s g e) h).isSome := by
  by_cases hgh : g = h
  · subst hgh
    simp [lookupA_updateA_self]
  · rwa [lookupA_updateA_ne _ _ hgh]

theorem eventsFor_append (h : String) (a b : List Event) :
    eventsFor h (a ++ b) = eventsFor h a ++ eventsFor h b := by
  simp [eventsFor, List.filter_append]

theorem eventsFor_single_ne {h g : String} (hne : g ≠ h) (cache : String → Option String)
    (now : Int) (ac : Snapshot) : eventsFor h [mkEvent cache now g ac] = [] := by
  simp [eventsFor, mkEvent, hne]

/-! ## Lemmas about the observation-processing loop -/

theorem proc_mem_mono (fails : String → Bool) (cache : String → Option String) (now : Int)
    {s : List (String × Entry)} {evs : List Event} {b : List Snapshot} {h : String}
    (hs : (lookupA s h).isSome) :
    (lookupA (processSnaps fails cache now s evs b).1 h).isSome := by
  induction b generalizing s evs with
  | nil => simpa [processSnaps] using hs
  | cons ac rest ih =>
    cases hef : effHexU ac with
    | none => simpa [processSnaps, hef] using ih hs
    | some g =>
      cases hlg : lookupA s g with
      | some old =>
        simpa [processSnaps, hef, hlg] using
          ih (lookupA_updateA_isSome g (updEntry cache now g ac old) hs)
      | none =>
        cases hf : fails g with
        | true => simpa [processSnaps, hef, hlg, hf] using hs
        | false =>
          simpa [processSnaps, hef, hlg, hf] using
            ih (lookupA_updateA_isSome g (newEntry cache now g ac) hs)

theorem proc_events_of_mem (fails : String → Bool) (cache : String → Option String) (now : Int)
    {s : List (String × Entry)} {evs : List Event} {b : List Snapshot} {h : String}
    (hs : (lookupA s h).isSome) :
    eventsFor h (processSnaps fails cache now s evs b).2.1 = eventsFor h evs := by
  induction b generalizing s evs with
  | nil => simp [processSnaps]
  | cons ac rest ih =>
    cases hef : effHexU ac with
    | none => simpa [processSnaps, hef] using ih hs
    | some g =>
      cases hlg : lookupA s g with
      | some old =>
        simpa [processSnaps, hef, hlg] using
          ih (lookupA_updateA_isSome g (updEntry cache now g ac old) hs)
      | none =>
        cases hf : fails g with
        | true => simp [processSnaps, hef, hlg, hf]
        | false =>
          have hgh : g ≠ h := by
            intro hgh
            rw [hgh] at hlg
            rw [hlg] at hs
            simp at hs
          have hstep : processSnaps fails cache now s evs (ac :: rest) =
              processSnaps fails cache now (updateA s g (newEntry cache now g ac))
                (evs ++ [mkEvent cache now g ac]) rest := by
            simp [processSnaps, hef, hlg, hf]
          rw [hstep, ih (lookupA_updateA_isSome g (newEntry cache now g ac) hs),
            eventsFor_append, eventsFor_single_ne hgh]
          simp

theorem proc_absent (fails : String → Bool) (cache : String → Option String) (now : Int)
    {s : List (String × Entry)} {evs : List Event} {b : List Snapshot} {h : String}
    (hb : ∀ ac ∈ b, effHexU ac ≠ some h) :
    lookupA (processSnaps fails cache now s evs b).1 h = lookupA s h ∧
    eventsFor h (processSnaps fails cache now s evs b).2.1 = eventsFor h evs := by
  induction b generalizing s evs with
  | nil => simp [processSnaps]
  | cons ac rest ih =>
    have hb' : ∀ ac' ∈ rest, effHexU ac' ≠ some h := fun ac' hm => hb ac' (by simp [hm])
    cases hef : effHexU ac with
    | none => simpa [processSnaps, hef] using ih hb'
    | some g =>
      have hgh : g ≠ h := by
        intro hgh
        exact hb ac (by simp) (by rw [hef, hgh])
      cases hlg : lookupA s g with
      | some old =>
        have := @ih (updateA s g (updEntry cache now g ac old)) evs hb'
        simp only [processSnaps, hef, hlg]
        rw [this.1, this.2, lookupA_updateA_ne _ _ hgh]
        exact ⟨rfl, rfl⟩
      | none =>
        cases hf : fails g with
        | true => simp [processSnaps, hef, hlg, hf]
        | false =>
          have hstep : processSnaps fails cache now s evs (ac :: rest) =
              processSnaps fails cache now (updateA s g (newEntry cache now g ac))
                (evs ++ [mkEvent cache now g ac]) rest := by
            simp [processSnaps, hef, hlg, hf]
          have := @ih (updateA s g (newEntry cache now g ac))
            (evs ++ [mkEvent cache now g ac]) hb'
          rw [hstep, this.1, this.2, lookupA_updateA_ne _ _ hgh, eventsFor_append,
            eventsFor_single_ne hgh]
          simp

theorem proc_noAbort (cache : String → Option String) (now : Int)
    {s : List (String × Entry)} {evs : List Event} {b : List Snapshot} :
    (processSnaps (fun _ => false) cache now s evs b).2.2 = false := by
  induction b generalizing s evs with
  | nil => simp [processSnaps]
  | cons ac rest ih =>
    cases hef : effHexU ac with
    | none => simpa [processSnaps, hef] using ih
    | some g =>
      cases hlg : lookupA s g with
      | some old => simpa [processSnaps, hef, hlg] using ih
      | none => simpa [processSnaps, hef, hlg] using ih

theorem proc_nodup (fails : String → Bool) (cache : String → Option String) (now : Int)
    {s : List (String × Entry)} {evs : List Event} {b : List Snapshot}
    (hs : (keysA s).Nodup) :
    (keysA (processSnaps fails cache now s evs b).1).Nodup := by
  induction b generalizing s evs with
  | nil => simpa [processSnaps] using hs
  | cons ac rest ih =>
    cases hef : effHexU ac with
    | none => simpa [processSnaps, hef] using ih hs
    | some g =>
      cases hlg : lookupA s g with
      | some old =>
        simpa [processSnaps, hef, hlg] using
          ih (nodup_keysA_updateA g (updEntry cache now g ac old) hs)
      | none =>
        cases hf : fails g with
        | true => simpa [processSnaps, hef, hlg, hf] using hs
        | false =>
          simpa [processSnaps, hef, hlg, hf] using
            ih (nodup_keysA_updateA g (newEntry cache now g ac) hs)

theorem proc_count (cache : String → Option String) (now : Int)
    {s : List (String × Entry)} {evs : List Event} {b : List Snapshot} {h : String} :
    (eventsFor h (processSnaps (fun _ => false) cache now s evs b).2.1).length =
      (eventsFor h evs).length +
      (if h ∈ batchHexes b ∧ lookupA s h = none then 1 else 0) := by
  induction b generalizing s evs with
  | nil => simp [processSnaps, batchHexes]
  | cons ac rest ih =>
    cases hef : effHexU ac with
    | none =>
      have hbh : batchHexes (ac :: rest) = batchHexes rest := by
        simp [batchHexes, List.filterMap_cons, hef]
      simp only [processSnaps, hef]
      rw [ih, hbh]
    | some g =>
      have hbh : batchHexes (ac :: rest) = g :: batchHexes rest := by
        simp [batchHexes, List.filterMap_cons, hef]
      cases hlg : lookupA s g with
      | some old =>
        by_cases hgh : g = h
        · subst hgh
          simp only [processSnaps, hef, hlg]
          rw [ih, hbh]
          simp [hlg, lookupA_updateA_self]
        · simp only [processSnaps, hef, hlg]
          rw [ih, hbh, lookupA_updateA_ne _ _ hgh]
          have : (h ∈ g :: batchHexes rest ∧ lookupA s h = none) ↔
              (h ∈ batchHexes rest ∧ lookupA s h = none) := by
            constructor
            · rintro ⟨hm, hn⟩
              rcases List.mem_cons.mp hm with rfl | hm
              · exact absurd rfl hgh
              · exact ⟨hm, hn⟩
            · rintro ⟨hm, hn⟩
              exact ⟨List.mem_cons.mpr (Or.inr hm), hn⟩
          rw [if_congr this rfl rfl]
      | none =>
        have hstep : processSnaps (fun _ => false) cache now s evs (ac :: rest) =
            processSnaps (fun _ => false) cache now (updateA s g (newEntry cache now g ac))
              (evs ++ [mkEvent cache now g ac]) rest := by
          simp [processSnaps, hef, hlg]
        by_cases hgh : g = h
        · subst hgh
          rw [hstep, ih, eventsFor_append]
          have h1 : lookupA (updateA s g (newEntry cache now g ac)) g =
              some (newEntry cache now g ac) := lookupA_updateA_self s g _
          simp [eventsFor, mkEvent, hbh, hlg, h1]
        · rw [hstep, ih, lookupA_updateA_ne _ _ hgh, eventsFor_append,
            eventsFor_single_ne hgh]
          have hiff : (h ∈ batchHexes (ac :: rest) ∧ lookupA s h = none) ↔
              (h ∈ batchHexes rest ∧ lookupA s h = none) := by
            rw [hbh]
            constructor
            · rintro ⟨hm, hn⟩
              rcases List.mem_cons.mp hm with rfl | hm
              · exact absurd rfl hgh
              · exact ⟨hm, hn⟩
            · rintro ⟨hm, hn⟩
              exact ⟨List.mem_cons.mpr (Or.inr hm), hn⟩
          rw [if_congr hiff rfl rfl]
          simp

theorem proc_mem_of_batch (cache : String → Option String) (now : Int)
    {s : List (String × Entry)} {evs : List Event} {b : List Snapshot} {h : String}
    (hb : h ∈ batchHexes b) :
    (lookupA (processSnaps (fun _ => false) cache now s evs b).1 h).isSome := by
  induction b generalizing s evs with
  | nil => simp [batchHexes] at hb
  | cons ac rest ih =>
    cases hef : effHexU ac with
    | none =>
      have hb' : h ∈ batchHexes rest := by
        simpa [batchHexes, List.filterMap_cons, hef] using hb
      simpa [processSnaps, hef] using ih hb'
    | some g =>
      by_cases hgh : g = h
      · subst hgh
        cases hlg : lookupA s g with
        | some old =>
          simpa [processSnaps, hef, hlg] using
            proc_mem_mono _ cache now (lookupA_updateA_isSome g _ (by simp [hlg]))
        | none =>
          have : (lookupA (updateA s g (newEntry cache now g ac)) g).isSome := by
            simp [lookupA_updateA_self]
          simpa [processSnaps, hef, hlg] using proc_mem_mono _ cache now this
      · have hb' : h ∈ batchHexes rest := by
          rcases (mem_batchHexes_iff _ _).mp hb with ⟨ac', hm, hef'⟩
          rcases List.mem_cons.mp hm with rfl | hm
          · rw [hef] at hef'
            exact absurd (Option.some_injective _ hef') hgh
          · exact (mem_batchHexes_iff _ _).mpr ⟨ac', hm, hef'⟩
        cases hlg : lookupA s g with
        | some old => simpa [processSnaps, hef, hlg] using ih hb'
        | none => simpa [processSnaps, hef, hlg] using ih hb'

theorem proc_regSome (fails : String → Bool) (cache : String → Option String) (now : Int)
    {s : List (String × Entry)} {evs : List Event} {b : List Snapshot} {h : String}
    (hs : ∃ e, lookupA s h = some e ∧ e.registration.isSome) :
    ∃ e, lookupA (processSnaps fails cache now s evs b).1 h = some e ∧
      e.registration.isSome := by
  induction b generalizing s evs with
  | nil => simpa [processSnaps] using hs
  | cons ac rest ih =>
    obtain ⟨e, he, hreg⟩ := hs
    cases hef : effHexU ac with
    | none => simpa [processSnaps, hef] using ih ⟨e, he, hreg⟩
    | some g =>
      by_cases hgh : g = h
      · subst hgh
        have hstep : processSnaps fails cache now s evs (ac :: rest) =
            processSnaps fails cache now (updateA s g (updEntry cache now g ac e)) evs rest := by
          simp [processSnaps, hef, he]
        have hnew : lookupA (updateA s g (updEntry cache now g ac e)) g =
            some (updEntry cache now g ac e) := lookupA_updateA_self s g _
        have hregnew : (updEntry cache now g ac e).registration.isSome :=
          pyOrS_isSome _ hreg
        rw [hstep]
        exact ih ⟨_, hnew, hregnew⟩
      · cases hlg : lookupA s g with
        | some old =>
          have he' : lookupA (updateA s g (updEntry cache now g ac old)) h = some e := by
            rw [lookupA_updateA_ne _ _ hgh, he]
          simpa [processSnaps, hef, hlg] using ih ⟨e, he', hreg⟩
        | none =>
          cases hf : fails g with
          | true => exact ⟨e, by simpa [processSnaps, hef, hlg, hf] using he, hreg⟩
          | false =>
            have he' : lookupA (updateA s g (newEntry cache now g ac)) h = some e := by
              rw [lookupA_updateA_ne _ _ hgh, he]
            simpa [processSnaps, hef, hlg, hf] using ih ⟨e, he', hreg⟩

/-! ## Lemmas about one failure-free poll cycle -/

theorem pollOk_eq (cache : String → Option String) (now : Int)
    (s : List (String × Entry)) (batch : List Snapshot) :
    pollOk cache now s batch =
      (evict now (batchHexes batch)
        (processSnaps (fun _ => false) cache now s [] batch).1,
       (processSnaps (fun _ => false) cache now s [] batch).2.1, false) := by
  have hab := @proc_noAbort cache now s [] batch
  rcases hp : processSnaps (fun _ => false) cache now s [] batch with ⟨s', evs, ab⟩
  rw [hp] at hab
  simp at hab
  subst hab
  simp [pollOk, poll_once, hp]

theorem pollOk_mem_of_batch (cache : String → Option String) (now : Int)
    {s : List (String × Entry)} {batch : List Snapshot} {h : String}
    (hb : h ∈ batchHexes batch) :
    (lookupA (pollOk cache now s batch).1 h).isSome := by
  rw [pollOk_eq]
  have h1 := @proc_mem_of_batch cache now s [] batch h hb
  rcases Option.isSome_iff_exists.mp h1 with ⟨e, he⟩
  have hc : (batchHexes batch).contains h = true := List.elem_iff.mpr hb
  have hall : ∀ e', (fun p : String × Entry =>
      !(!(batchHexes batch).contains p.1 && decide (600 < now - p.2.time))) (h, e') = true := by
    intro e'
    simp only [hc, Bool.not_true, Bool.false_and, Bool.not_false]
  simp only [evict]
  rw [lookupA_filter_keepAll _ hall, he]
  rfl

theorem pollOk_keep (cache : String → Option String) (now : Int)
    {s : List (String × Entry)} {batch : List Snapshot} {h : String} {e : Entry}
    (he : lookupA s h = some e) (hb : h ∉ batchHexes batch)
    (ht : now - e.time ≤ 600) :
    lookupA (pollOk cache now s batch).1 h = some e := by
  rw [pollOk_eq]
  have habs : ∀ ac ∈ batch, effHexU ac ≠ some h := by
    intro ac hm hef
    exact hb ((mem_batchHexes_iff _ _).mpr ⟨ac, hm, hef⟩)
  have h1 := (@proc_absent (fun _ => false) cache now s [] batch h habs).1
  rw [he] at h1
  simp only [evict]
  exact lookupA_filter_of_keep _ h1 (by simp [not_lt.mpr ht])

theorem pollOk_evict (cache : String → Option String) (now : Int)
    {s : List (String × Entry)} {batch : List Snapshot} {h : String} {e : Entry}
    (hnd : (keysA s).Nodup) (he : lookupA s h = some e) (hb : h ∉ batchHexes batch)
    (ht : 600 < now - e.time) :
    lookupA (pollOk cache now s batch).1 h = none := by
  rw [pollOk_eq]
  have habs : ∀ ac ∈ batch, effHexU ac ≠ some h := by
    intro ac hm hef
    exact hb ((mem_batchHexes_iff _ _).mpr ⟨ac, hm, hef⟩)
  have h1 := (@proc_absent (fun _ => false) cache now s [] batch h habs).1
  rw [he] at h1
  have hnd' := @proc_nodup (fun _ => false) cache now s [] batch hnd
  have hcont : (batchHexes batch).contains h = false := by
    cases hc : (batchHexes batch).contains h
    · rfl
    · exact absurd (List.elem_iff.mp hc) hb
  simp only [evict]
  exact lookupA_filter_of_drop _ hnd' h1
    (by simp only [hcont, Bool.not_false, Bool.true_and, decide_eq_true ht, Bool.not_true])

theorem pollOk_none (cache : String → Option String) (now : Int)
    {s : List (String × Entry)} {batch : List Snapshot} {h : String}
    (he : lookupA s h = none) (hb : h ∉ batchHexes batch) :
    lookupA (pollOk cache now s batch).1 h = none := by
  rw [pollOk_eq]
  have habs : ∀ ac ∈ batch, effHexU ac ≠ some h := by
    intro ac hm hef
    exact hb ((mem_batchHexes_iff _ _).mpr ⟨ac, hm, hef⟩)
  have h1 := (@proc_absent (fun _ => false) cache now s [] batch h habs).1
  rw [he] at h1
  simp only [evict]
  exact lookupA_filter_none _ h1

theorem pollOk_nodup (cache : String → Option String) (now : Int)
    {s : List (String × Entry)} {batch : List Snapshot}
    (hnd : (keysA s).Nodup) : (keysA (pollOk cache now s batch).1).Nodup := by
  rw [pollOk_eq]
  exact nodup_keysA_filter _ (@proc_nodup (fun _ => false) cache now s [] batch hnd)

theorem pollOk_events_of_mem (cache : String → Option String) (now : Int)
    {s : List (String × Entry)} {batch : List Snapshot} {h : String}
    (hs : (lookupA s h).isSome) :
    eventsFor h (pollOk cache now s batch).2.1 = [] := by
  rw [pollOk_eq]
  simpa [eventsFor] using @proc_events_of_mem (fun _ => false) cache now s [] batch h hs

theorem pollOk_events_absent (cache : String → Option String) (now : Int)
    {s : List (String × Entry)} {batch : List Snapshot} {h : String}
    (hb : h ∉ batchHexes batch) :
    eventsFor h (pollOk cache now s batch).2.1 = [] := by
  rw [pollOk_eq]
  have habs : ∀ ac ∈ batch, effHexU ac ≠ some h := by
    intro ac hm hef
    exact hb ((mem_batchHexes_iff _ _).mpr ⟨ac, hm, hef⟩)
  simpa [eventsFor] using (@proc_absent (fun _ => false) cache now s [] batch h habs).2

theorem pollOk_count (cache : String → Option String) (now : Int)
    (s : List (String × Entry)) (batch : List Snapshot) (h : String) :
    (eventsFor h (pollOk cache now s batch).2.1).length =
      if h ∈ batchHexes batch ∧ lookupA s h = none then 1 else 0 := by
  rw [pollOk_eq]
  simpa [eventsFor] using @proc_count cache now s [] batch h

/-! ## Lemmas about runs of poll cycles -/

theorem cyclesRun_append (s : List (String × Entry)) (l1 l2 : List Cycle) :
    cyclesRun s (l1 ++ l2) =
      ((cyclesRun (cyclesRun s l1).1 l2).1,
       (cyclesRun s l1).2 ++ (cyclesRun (cyclesRun s l1).1 l2).2) := by
  induction l1 generalizing s with
  | nil => simp [cyclesRun]
  | cons c cs ih =>
    simp only [List.cons_append, cyclesRun, List.append_eq]
    rw [ih]
    simp [List.append_assoc]

theorem run_live_no_events (h : String) (cycles : List Cycle) :
    ∀ s : List (String × Entry), (lookupA s h).isSome →
      staysLive h s cycles = true →
      eventsFor h (cyclesRun s cycles).2 = [] ∧
      (lookupA (cyclesRun s cycles).1 h).isSome := by
  induction cycles with
  | nil =>
    intro s hs _
    simp [cyclesRun, eventsFor, hs]
  | cons c cs ih =>
    intro s hs hlive
    simp only [staysLive, Bool.and_eq_true, Bool.or_eq_true] at hlive
    obtain ⟨hcond, hrest⟩ := hlive
    have hsome : (lookupA (pollOk c.cache c.now s c.batch).1 h).isSome := by
      rcases hcond with hc | hc
      · exact pollOk_mem_of_batch c.cache c.now (List.elem_iff.mp hc)
      · rcases Option.isSome_iff_exists.mp hs with ⟨e, he⟩
        rw [he] at hc
        have hc' := of_decide_eq_true hc
        by_cases hb : h ∈ batchHexes c.batch
        · exact pollOk_mem_of_batch c.cache c.now hb
        · rw [pollOk_keep c.cache c.now he hb hc']
          rfl
    have hev : eventsFor h (pollOk c.cache c.now s c.batch).2.1 = [] :=
      pollOk_events_of_mem c.cache c.now hs
    have := ih (pollOk c.cache c.now s c.batch).1 hsome hrest
    simp only [cyclesRun]
    rw [eventsFor_append, hev, this.1]
    exact ⟨rfl, this.2⟩

theorem run_absent_stays_none (h : String) (cs : List Cycle) :
    ∀ s : List (String × Entry), lookupA s h = none →
      (∀ c ∈ cs, h ∉ batchHexes c.batch) →
      lookupA (cyclesRun s cs).1 h = none ∧ eventsFor h (cyclesRun s cs).2 = [] := by
  induction cs with
  | nil =>
    intro s hs _
    simpa [cyclesRun, eventsFor] using hs
  | cons c rest ih =>
    intro s hs habs
    have hb : h ∉ batchHexes c.batch := habs c (by simp)
    have h1 : lookupA (pollOk c.cache c.now s c.batch).1 h = none :=
      pollOk_none c.cache c.now hs hb
    have hev : eventsFor h (pollOk c.cache c.now s c.batch).2.1 = [] :=
      pollOk_events_absent c.cache c.now hb
    have := ih _ h1 (fun c' hm => habs c' (by simp [hm]))
    simp only [cyclesRun]
    rw [eventsFor_append, hev, this.2]
    exact ⟨this.1, rfl⟩

theorem run_gap_evicts (h : String) (cs : List Cycle) :
    ∀ (s : List (String × Entry)) (e : Entry), (keysA s).Nodup →
      lookupA s h = some e →
      (∀ c ∈ cs, h ∉ batchHexes c.batch) →
      (∃ c ∈ cs, 600 < c.now - e.time) →
      lookupA (cyclesRun s cs).1 h = none ∧ eventsFor h (cyclesRun s cs).2 = [] := by
  induction cs with
  | nil =>
    rintro s e _ _ _ ⟨c, hm, _⟩
    simp at hm
  | cons c rest ih =>
    rintro s e hnd he habs ⟨cg, hmem, hgap⟩
    have hb : h ∉ batchHexes c.batch := habs c (by simp)
    have habs' : ∀ c' ∈ rest, h ∉ batchHexes c'.batch := fun c' hm => habs c' (by simp [hm])
    have hev : eventsFor h (pollOk c.cache c.now s c.batch).2.1 = [] :=
      pollOk_events_absent c.cache c.now hb
    have hnd' : (keysA (pollOk c.cache c.now s c.batch).1).Nodup :=
      pollOk_nodup c.cache c.now hnd
    rcases List.mem_cons.mp hmem with rfl | hmem'
    · have h1 : lookupA (pollOk cg.cache cg.now s cg.batch).1 h = none :=
        pollOk_evict cg.cache cg.now hnd he hb hgap
      have := run_absent_stays_none h rest _ h1 habs'
      simp only [cyclesRun]
      rw [eventsFor_append, hev, this.2]
      exact ⟨this.1, rfl⟩
    · by_cases ht : 600 < c.now - e.time
      · have h1 : lookupA (pollOk c.cache c.now s c.batch).1 h = none :=
          pollOk_evict c.cache c.now hnd he hb ht
        have := run_absent_stays_none h rest _ h1 habs'
        simp only [cyclesRun]
        rw [eventsFor_append, hev, this.2]
        exact ⟨this.1, rfl⟩
      · have h1 : lookupA (pollOk c.cache c.now s c.batch).1 h = some e :=
          pollOk_keep c.cache c.now he hb (not_lt.mp ht)
        have := ih _ e hnd' h1 habs' ⟨cg, hmem', hgap⟩
        simp only [cyclesRun]
        rw [eventsFor_append, hev, this.2]
        exact ⟨this.1, rfl⟩

/-! ## Lemmas about the batch abort on a raising insert -/

theorem processSnaps_append (fails : String → Bool) (cache : String → Option String)
    (now : Int) (b2 : List Snapshot) :
    ∀ (b1 : List Snapshot) (s : List (String × Entry)) (evs : List Event),
      (processSnaps fails cache now s evs b1).2.2 = false →
      processSnaps fails cache now s evs (b1 ++ b2) =
        processSnaps fails cache now (processSnaps fails cache now s evs b1).1
          (processSnaps fails cache now s evs b1).2.1 b2 := by
  intro b1
  induction b1 with
  | nil =>
    intro s evs _
    simp [processSnaps]
  | cons ac rest ih =>
    intro s evs hok
    cases hef : effHexU ac with
    | none =>
      have hstep : processSnaps fails cache now s evs (ac :: rest) =
          processSnaps fails cache now s evs rest := by
        simp [processSnaps, hef]
      have hstep2 : processSnaps fails cache now s evs (ac :: (rest ++ b2)) =
          processSnaps fails cache now s evs (rest ++ b2) := by
        simp [processSnaps, hef]
      rw [List.cons_append, hstep2, hstep]
      exact ih s evs (by rwa [hstep] at hok)
    | some g =>
      cases hlg : lookupA s g with
      | some old =>
        have hstep : processSnaps fails cache now s evs (ac :: rest) =
            processSnaps fails cache now (updateA s g (updEntry cache now g ac old)) evs rest := by
          simp [processSnaps, hef, hlg]
        have hstep2 : processSnaps fails cache now s evs (ac :: (rest ++ b2)) =
            processSnaps fails cache now (updateA s g (updEntry cache now g ac old)) evs
              (rest ++ b2) := by
          simp [processSnaps, hef, hlg]
        rw [List.cons_append, hstep2, hstep]
        exact ih _ _ (by rwa [hstep] at hok)
      | none =>
        cases hf : fails g with
        | true =>
          have : (processSnaps fails cache now s evs (ac :: rest)).2.2 = true := by
            simp [processSnaps, hef, hlg, hf]
          rw [this] at hok
          exact absurd hok (by simp)
        | false =>
          have hstep : processSnaps fails cache now s evs (ac :: rest) =
              processSnaps fails cache now (updateA s g (newEntry cache now g ac))
                (evs ++ [mkEvent cache now g ac]) rest := by
            simp [processSnaps, hef, hlg, hf]
          have hstep2 : processSnaps fails cache now s evs (ac :: (rest ++ b2)) =
              processSnaps fails cache now (updateA s g (newEntry cache now g ac))
                (evs ++ [mkEvent cache now g ac]) (rest ++ b2) := by
            simp [processSnaps, hef, hlg, hf]
          rw [List.cons_append, hstep2, hstep]
          exact ih _ _ (by rwa [hstep] at hok)

theorem processSnaps_abort_step (fails : String → Bool) (cache : String → Option String)
    (now : Int) {s : List (String × Entry)} {evs : List Event} {ac : Snapshot}
    {b2 : List Snapshot} {h : String}
    (hef : effHexU ac = some h) (hl : lookupA s h = none) (hf : fails h = true) :
    processSnaps fails cache now s evs (ac :: b2) = (s, evs, true) := by
  simp [processSnaps, hef, hl, hf]

/-! ## Lemmas about the enrichment cache -/

theorem lookupC_updateC_self (c : List (String × Option RegRes)) (h : String)
    (v : Option RegRes) : lookupC (updateC c h v) h = some v := by
  induction c with
  | nil => simp [updateC, lookupC]
  | cons p t ih =>
    obtain ⟨k, w⟩ := p
    by_cases hk : k = h
    · simp [updateC, hk, lookupC]
    · simp [updateC, hk, lookupC, ih]

theorem lookupC_updateC_ne (c : List (String × Option RegRes)) {g h : String}
    (v : Option RegRes) (hne : g ≠ h) : lookupC (updateC c g v) h = lookupC c h := by
  induction c with
  | nil => simp [updateC, lookupC, hne]
  | cons p t ih =>
    obtain ⟨k, w⟩ := p
    by_cases hk : k = g
    · subst hk
      simp [updateC, lookupC, hne]
    · by_cases hkh : k = h
      · subst hkh
        simp [updateC, lookupC, hk]
      · simp [updateC, lookupC, hk, hkh, ih]

theorem lookup_registration_cached {up : Upstream} {c : List (String × Option RegRes)}
    {x : String} {v : Option RegRes} (hv : lookupC c (pyUpper x) = some v) :
    lookup_registration up c x = (c, v, false) := by
  simp [lookup_registration, hv]

theorem lookupC_result_self (up : Upstream) (c : List (String × Option RegRes))
    (x : String) :
    lookupC (lookup_registration up c x).1 (pyUpper x) =
      some (lookup_registration up c x).2.1 := by
  cases hm : lookupC c (pyUpper x) with
  | some v => simp [lookup_registration, hm]
  | none =>
    cases hu : up (pyUpper x) with
    | none => simp [lookup_registration, hm, hu, lookupC_updateC_self]
    | some ca =>
      obtain ⟨code, air⟩ := ca
      by_cases hc : code = 200
      · cases ht : truthyStr (pyOrS air.registration air.regid) with
        | none => simp [lookup_registration, hm, hu, hc, ht, lookupC_updateC_self]
        | some reg0 => simp [lookup_registration, hm, hu, hc, ht, lookupC_updateC_self]
      · simp [lookup_registration, hm, hu, hc, lookupC_updateC_self]

theorem lookupC_preserved_by_call (up : Upstream) (c : List (String × Option RegRes))
    (x H : String) {v : Option RegRes} (hv : lookupC c H = some v) :
    lookupC (lookup_registration up c x).1 H = some v := by
  by_cases hx : pyUpper x = H
  · subst hx
    rw [lookup_registration_cached hv]
    exact hv
  · cases hm : lookupC c (pyUpper x) with
    | some w => rw [lookup_registration_cached hm]; exact hv
    | none =>
      cases hu : up (pyUpper x) with
      | none =>
        simp [lookup_registration, hm, hu, lookupC_updateC_ne _ _ hx, hv]
      | some ca =>
        obtain ⟨code, air⟩ := ca
        by_cases hc : code = 200
        · cases ht : truthyStr (pyOrS air.registration air.regid) with
          | none => simp [lookup_registration, hm, hu, hc, ht, lookupC_updateC_ne _ _ hx, hv]
          | some reg0 => simp [lookup_registration, hm, hu, hc, ht, lookupC_updateC_ne _ _ hx, hv]
        · simp [lookup_registration, hm, hu, hc, lookupC_updateC_ne _ _ hx, hv]

theorem lookupC_preserved_by_run (calls : List (Upstream × String)) :
    ∀ (c : List (String × Option RegRes)) (H : String) (v : Option RegRes),
      lookupC c H = some v → lookupC (lookupRun c calls) H = some v := by
  induction calls with
  | nil => intro c H v hv; simpa [lookupRun] using hv
  | cons p rest ih =>
    intro c H v hv
    obtain ⟨up, x⟩ := p
    simp only [lookupRun]
    exact ih _ H v (lookupC_preserved_by_call up c x H hv)

/-! ## Small facts about registration strings -/

theorem truthyStr_some_not_empty {o : Option String} {r : String}
    (h : truthyStr o = some r) : r.isEmpty = false := by
  cases o with
  | none => simp [truthyStr] at h
  | some s =>
    by_cases hs : s.isEmpty
    · simp [truthyStr, hs] at h
    · simp [truthyStr, hs] at h
      subst h
      simpa using hs

theorem normalize_registration_not_empty {o : Option String} {s : String}
    (h : normalize_registration o = some s) : s.isEmpty = false := by
  unfold normalize_registration at h
  cases ht : truthyStr o with
  | none => rw [ht] at h; simp at h
  | some r =>
    rw [ht] at h
    simp only at h
    by_cases hl : 2 ≤ (pyUpper (pyStrip r)).length
    · rw [if_pos hl] at h
      obtain rfl := Option.some_injective _ h
      cases he : (pyUpper (pyStrip r)).isEmpty
      · rfl
      · exfalso
        have h0 : pyUpper (pyStrip r) = "" := (String.isEmpty_iff _).mp he
        rw [h0] at hl
        simp at hl
    · rw [if_neg hl] at h
      simp at h

theorem snapReg_some_not_empty {cache : String → Option String} {h : String}
    {ac : Snapshot} {r : String} (hr : snapReg cache h ac = some r) :
    r.isEmpty = false := by
  unfold snapReg at hr
  cases hp : pyOrS (normalize_registration ac.reg) (normalize_registration ac.flight) with
  | some r0 =>
    rw [hp] at hr
    simp at hr
    subst hr
    cases hn : normalize_registration ac.reg with
    | some sa =>
      have hne := normalize_registration_not_empty hn
      rw [hn] at hp
      simp [pyOrS, hne] at hp
      rw [hp] at hne
      exact hne
    | none =>
      rw [hn] at hp
      simp [pyOrS] at hp
      exact normalize_registration_not_empty hp
  | none =>
    rw [hp] at hr
    exact truthyStr_some_not_empty hr

theorem lookupA_filter_cases {s : List (String × Entry)} {h : String} {e : Entry}
    (p : String × Entry → Bool) (hnd : (keysA s).Nodup) (he : lookupA s h = some e) :
    lookupA (s.filter p) h = some e ∨ lookupA (s.filter p) h = none := by
  cases hp : p (h, e)
  · exact Or.inr (lookupA_filter_of_drop p hnd he hp)
  · exact Or.inl (lookupA_filter_of_keep p he hp)

/-! ## Claim theorems -/

/-- C1: across any sequence of poll cycles, while an identifier's Session stays
live (each cycle either observes it or falls within the 600s eviction window of
its stored last-observation time) no Visit Event is written for it; and after a
run of cycles in which the identifier is absent and some cycle's clock exceeds
the stored time by more than the window (so the Session was evicted), a cycle
whose batch observes the identifier again writes exactly one new Visit Event. -/
theorem c1_visit_event_unique :
    (∀ (s : List (String × Entry)) (h : String) (cycles : List Cycle),
        (lookupA s h).isSome → staysLive h s cycles = true →
        eventsFor h (cyclesRun s cycles).2 = []) ∧
    (∀ (s : List (String × Entry)) (h : String) (e : Entry) (cs : List Cycle)
        (cobs : Cycle),
        (keysA s).Nodup → lookupA s h = some e →
        (∀ c ∈ cs, h ∉ batchHexes c.batch) →
        (∃ c ∈ cs, 600 < c.now - e.time) →
        h ∈ batchHexes cobs.batch →
        (eventsFor h (cyclesRun s (cs ++ [cobs])).2).length = 1) := by
  constructor
  · intro s h cycles hs hlive
    exact (run_live_no_events h cycles s hs hlive).1
  · intro s h e cs cobs hnd he habs hgap hb
    have hgapres := run_gap_evicts h cs s e hnd he habs hgap
    have h2 : (cyclesRun s (cs ++ [cobs])).2 =
        (cyclesRun s cs).2 ++ (cyclesRun (cyclesRun s cs).1 [cobs]).2 := by
      rw [cyclesRun_append]
    rw [h2, eventsFor_append, hgapres.2, List.nil_append]
    have h3 : (cyclesRun (cyclesRun s cs).1 [cobs]).2 =
        (pollOk cobs.cache cobs.now (cyclesRun s cs).1 cobs.batch).2.1 := by
      simp [cyclesRun]
    rw [h3, pollOk_count]
    rw [if_pos ⟨hb, hgapres.1⟩]

/-- Witness for C1 at a concrete Session and concrete cycles. -/
theorem c1_visit_event_unique_witness :
    eventsFor "ABC12X"
      (cyclesRun [("ABC12X", ⟨none, none, none, none, none, 0⟩)]
        [⟨500, fun _ => none, []⟩]).2 = [] ∧
    (eventsFor "ABC12X"
      (cyclesRun [("ABC12X", ⟨none, none, none, none, none, 0⟩)]
        ([⟨700, fun _ => none, []⟩] ++
          [⟨800, fun _ => none, [{ hex := some "abc12x" }]⟩])).2).length = 1 :=
  ⟨c1_visit_event_unique.1 [("ABC12X", ⟨none, none, none, none, none, 0⟩)] "ABC12X"
      [⟨500, fun _ => none, []⟩] (by decide) (by decide),
   c1_visit_event_unique.2 [("ABC12X", ⟨none, none, none, none, none, 0⟩)] "ABC12X"
      ⟨none, none, none, none, none, 0⟩ [⟨700, fun _ => none, []⟩]
      ⟨800, fun _ => none, [{ hex := some "abc12x" }]⟩
      (by decide) (by decide) (by decide) (by decide) (by decide)⟩

/-- C2 counterexample: `poll_once` does not guard the `insert_event` call, so
when the insert for the first fresh identifier raises, the cycle aborts: the
second snapshot of the batch is never processed (no Session, no Visit Event),
contradicting the claim that processing continues with the remaining batch. -/
theorem c2_insert_failure_counterexample :
    poll_once (fun g => g == "AA11AA") (fun _ => none) 100 []
        [{ hex := some "AA11AA" }, { hex := some "BB22BB" }] = ([], [], true) ∧
    lookupA (poll_once (fun g => g == "AA11AA") (fun _ => none) 100 []
        [{ hex := some "AA11AA" }, { hex := some "BB22BB" }]).1 "BB22BB" = none := by
  decide

/-- C2 (amended): when the Visit Event insert for one identifier raises, the
exception propagates out of `poll_once`: the state and events are exactly
those accumulated before the raising snapshot, the rest of the batch is not
processed, the eviction sweep is skipped, and the abort is reported to the
caller (`run_poller` swallows it one level up). -/
theorem c2_insert_failure_aborts_batch :
    ∀ (fails : String → Bool) (cache : String → Option String) (now : Int)
      (s : List (String × Entry)) (b1 : List Snapshot) (ac : Snapshot)
      (b2 : List Snapshot) (h : String),
      (processSnaps fails cache now s [] b1).2.2 = false →
      effHexU ac = some h →
      lookupA (processSnaps fails cache now s [] b1).1 h = none →
      fails h = true →
      poll_once fails cache now s (b1 ++ ac :: b2) =
        ((processSnaps fails cache now s [] b1).1,
         (processSnaps fails cache now s [] b1).2.1, true) := by
  intro fails cache now s b1 ac b2 h hok hef hl hf
  have happ := processSnaps_append fails cache now (ac :: b2) b1 s [] hok
  have habort := @processSnaps_abort_step fails cache now
    (processSnaps fails cache now s [] b1).1
    (processSnaps fails cache now s [] b1).2.1 ac b2 h hef hl hf
  unfold poll_once
  rw [happ, habort]

/-- Witness for the amended C2 at a concrete batch. -/
theorem c2_insert_failure_aborts_batch_witness :
    poll_once (fun g => g == "AA11AA") (fun _ => none) 100 []
        ([{ hex := some "CC33CC" }] ++ { hex := some "AA11AA" } :: [{ hex := some "BB22BB" }]) =
      ((processSnaps (fun g => g == "AA11AA") (fun _ => none) 100 [] []
          [{ hex := some "CC33CC" }]).1,
       (processSnaps (fun g => g == "AA11AA") (fun _ => none) 100 [] []
          [{ hex := some "CC33CC" }]).2.1, true) :=
  c2_insert_failure_aborts_batch (fun g => g == "AA11AA") (fun _ => none) 100 []
    [{ hex := some "CC33CC" }] { hex := some "AA11AA" } [{ hex := some "BB22BB" }]
    "AA11AA" (by decide) (by decide) (by decide) (by decide)

/-- C3: a Session last observed at time T stays Present at a poll at time
T+600-1 in which it does not reappear, is deleted at a poll at time T+600+1 in
which it does not reappear, and an identifier appearing in the current batch is
never evicted in that same cycle. -/
theorem c3_eviction_window :
    ∀ (cache : String → Option String) (s : List (String × Entry))
      (batch : List Snapshot) (h : String) (e : Entry),
      (keysA s).Nodup → lookupA s h = some e →
      ((h ∉ batchHexes batch →
          lookupA (pollOk cache (e.time + 600 - 1) s batch).1 h = some e) ∧
       (h ∉ batchHexes batch →
          lookupA (pollOk cache (e.time + 600 + 1) s batch).1 h = none) ∧
       (∀ now : Int, h ∈ batchHexes batch →
          (lookupA (pollOk cache now s batch).1 h).isSome)) := by
  intro cache s batch h e hnd he
  refine ⟨fun hb => ?_, fun hb => ?_, fun now hb => pollOk_mem_of_batch cache now hb⟩
  · exact pollOk_keep cache _ he hb (by omega)
  · exact pollOk_evict cache _ hnd he hb (by omega)

/-- Witness for C3 at a concrete Session (last observed at time 0). -/
theorem c3_eviction_window_witness :
    lookupA (pollOk (fun _ => none)
        ((⟨none, none, none, none, none, 0⟩ : Entry).time + 600 - 1)
        [("AAA111", ⟨none, none, none, none, none, 0⟩)] []).1 "AAA111" =
      some ⟨none, none, none, none, none, 0⟩ ∧
    lookupA (pollOk (fun _ => none)
        ((⟨none, none, none, none, none, 0⟩ : Entry).time + 600 + 1)
        [("AAA111", ⟨none, none, none, none, none, 0⟩)] []).1 "AAA111" = none ∧
    (lookupA (pollOk (fun _ => none) 50
        [("AAA111", ⟨none, none, none, none, none, 0⟩)]
        [{ hex := some "aaa111" }]).1 "AAA111").isSome :=
  ⟨(c3_eviction_window (fun _ => none) [("AAA111", ⟨none, none, none, none, none, 0⟩)]
      [] "AAA111" ⟨none, none, none, none, none, 0⟩ (by decide) (by decide)).1 (by decide),
   (c3_eviction_window (fun _ => none) [("AAA111", ⟨none, none, none, none, none, 0⟩)]
      [] "AAA111" ⟨none, none, none, none, none, 0⟩ (by decide) (by decide)).2.1 (by decide),
   (c3_eviction_window (fun _ => none) [("AAA111", ⟨none, none, none, none, none, 0⟩)]
      [{ hex := some "aaa111" }] "AAA111" ⟨none, none, none, none, none, 0⟩
      (by decide) (by decide)).2.2 50 (by decide)⟩

/-- C4 counterexample: `normalize_aircraft_type` can return the empty string
(whitespace-only model with no manufacturer collapses to `""`), and it returns
`"Unknown"` for a non-empty manufacturer with empty model and ICAO type, so the
result is neither always non-empty nor is `"Unknown"` reserved for the
all-empty input. -/
theorem c4_normalizer_totality_counterexample :
    normalize_aircraft_type none (some " ") none = "" ∧
    normalize_aircraft_type (some "BOEING") none none = "Unknown" ∧
    ¬ optEmpty (some "BOEING") := by
  refine ⟨by decide, by decide, ?_⟩
  rintro (h | h) <;> simp at h

/-- C4 (amended): `normalize_aircraft_type` is total and returns `"Unknown"`
whenever all three inputs are empty/absent, but not only then (a non-empty
manufacturer with empty model/ICAO also yields `"Unknown"`), and its result can
be the empty string (whitespace-only model with no manufacturer). -/
theorem c4_normalizer_totality_amended :
    (∀ m a i, optEmpty m → optEmpty a → optEmpty i →
        normalize_aircraft_type m a i = "Unknown") ∧
    normalize_aircraft_type none (some " ") none = "" ∧
    normalize_aircraft_type (some "BOEING") none none = "Unknown" := by
  refine ⟨?_, by decide, by decide⟩
  rintro m a i (rfl | rfl) (rfl | rfl) (rfl | rfl) <;> decide

/-- Witness for the amended C4: the all-absent input evaluates to "Unknown". -/
theorem c4_normalizer_totality_amended_witness :
    normalize_aircraft_type none none none = "Unknown" :=
  c4_normalizer_totality_amended.1 none none none (Or.inl rfl) (Or.inl rfl) (Or.inl rfl)

/-- C5: the normalizer is a pure function, and on the spec's concrete examples:
`("THE BOEING COMPANY", "737-8H4")` yields `"Boeing 737-800"`, model
`"A320-251N"` alone yields `"Airbus A320neo"`, and `(null, "", null)` yields
`"Unknown"`. -/
theorem c5_normalizer_examples :
    (∀ m a i, normalize_aircraft_type m a i = normalize_aircraft_type m a i) ∧
    normalize_aircraft_type (some "THE BOEING COMPANY") (some "737-8H4") none =
      "Boeing 737-800" ∧
    normalize_aircraft_type none (some "A320-251N") none = "Airbus A320neo" ∧
    normalize_aircraft_type none (some "") none = "Unknown" :=
  ⟨fun _ _ _ => rfl, by decide, by decide, by decide⟩

/-- C6: a failed upstream lookup (exception or non-success status) on a cache
miss returns the not-found result, counts as the one upstream call, writes an
explicit negative cache entry, that entry survives any later sequence of
`lookup_registration` calls, and any later call finding a negative entry
returns not-found from the cache without an upstream call. -/
theorem c6_lookup_failure_negative_cache :
    ∀ (up : Upstream) (cache : List (String × Option RegRes)) (hex_code : String),
      lookupC cache (pyUpper hex_code) = none →
      upstreamFailure (up (pyUpper hex_code)) →
      ((lookup_registration up cache hex_code).2.1 = none ∧
       (lookup_registration up cache hex_code).2.2 = true ∧
       lookupC (lookup_registration up cache hex_code).1 (pyUpper hex_code) = some none ∧
       (∀ calls : List (Upstream × String),
          lookupC (lookupRun (lookup_registration up cache hex_code).1 calls)
            (pyUpper hex_code) = some none) ∧
       (∀ (up' : Upstream) (c' : List (String × Option RegRes)) (x : String),
          lookupC c' (pyUpper x) = some none →
          lookup_registration up' c' x = (c', none, false))) := by
  intro up cache hex_code hmiss hfail
  have hcore : lookup_registration up cache hex_code =
      (updateC cache (pyUpper hex_code) none, none, true) := by
    rcases hfail with hnone | ⟨code, air, hup, hcode⟩
    · simp [lookup_registration, hmiss, hnone]
    · simp [lookup_registration, hmiss, hup, hcode]
  refine ⟨by rw [hcore], by rw [hcore], ?_, ?_, ?_⟩
  · rw [hcore]
    exact lookupC_updateC_self cache (pyUpper hex_code) none
  · intro calls
    apply lookupC_preserved_by_run
    rw [hcore]
    exact lookupC_updateC_self cache (pyUpper hex_code) none
  · intro up' c' x hneg
    exact lookup_registration_cached hneg

/-- Witness for C6: a network-error upstream on an empty cache. -/
theorem c6_lookup_failure_negative_cache_witness :
    (lookup_registration (fun _ => none) [] "abc123").2.1 = none ∧
    lookupC (lookup_registration (fun _ => none) [] "abc123").1 (pyUpper "abc123") =
      some none :=
  ⟨(c6_lookup_failure_negative_cache (fun _ => none) [] "abc123" rfl
      (Or.inl rfl)).1,
   (c6_lookup_failure_negative_cache (fun _ => none) [] "abc123" rfl
      (Or.inl rfl)).2.2.1⟩

/-- C7: a second `lookup_registration` call on the same identifier against the
same upstream is served from the cache: it returns the same value, leaves the
cache unchanged, and makes no upstream call, so the pair of calls makes at
most one upstream call. -/
theorem c7_lookup_idempotent :
    ∀ (up : Upstream) (cache : List (String × Option RegRes)) (hex_code : String),
      lookup_registration up (lookup_registration up cache hex_code).1 hex_code =
        ((lookup_registration up cache hex_code).1,
         (lookup_registration up cache hex_code).2.1, false) := by
  intro up cache hex_code
  exact lookup_registration_cached (lookupC_result_self up cache hex_code)

/-- C8: a live Session whose registration is non-null never has it reset to
null by a poll cycle: any entry still present after the cycle has a non-null
registration, and a Present-to-Present update whose observation yields no
registration keeps the old registration exactly. -/
theorem c8_registration_monotone :
    ∀ (cache : String → Option String) (now : Int) (s : List (String × Entry))
      (batch : List Snapshot) (h : String) (e : Entry) (r : String),
      (keysA s).Nodup → lookupA s h = some e → e.registration = some r →
      ((∀ e', lookupA (pollOk cache now s batch).1 h = some e' →
          e'.registration.isSome) ∧
       (∀ ac : Snapshot, effHexU ac = some h → snapReg cache h ac = none →
          lookupA (pollOk cache now s [ac]).1 h = some (updEntry cache now h ac e) ∧
          (updEntry cache now h ac e).registration = some r)) := by
  intro cache now s batch h e r hnd he hr
  constructor
  · intro e' he'
    obtain ⟨e0, he0, hr0⟩ :=
      @proc_regSome (fun _ => false) cache now s [] batch h
        ⟨e, he, by rw [hr]; rfl⟩
    have hnd' := @proc_nodup (fun _ => false) cache now s [] batch hnd
    rw [pollOk_eq] at he'
    simp only [evict] at he'
    rcases lookupA_filter_cases _ hnd' he0 with hcase | hcase
    · have : some e0 = some e' := by rw [← hcase, he']
      obtain rfl := Option.some_injective _ this
      exact hr0
    · rw [hcase] at he'
      cases he'
  · intro ac hef hsnap
    have hstate : processSnaps (fun _ => false) cache now s [] [ac] =
        (updateA s h (updEntry cache now h ac e), [], false) := by
      simp [processSnaps, hef, he]
    have hb : h ∈ batchHexes [ac] := by
      simp [batchHexes, List.filterMap_cons, hef]
    have hc : (batchHexes [ac]).contains h = true := List.elem_iff.mpr hb
    constructor
    · rw [pollOk_eq, hstate]
      simp only [evict]
      rw [lookupA_filter_keepAll _ (fun e' => by
        simp only [hc, Bool.not_true, Bool.false_and, Bool.not_false])]
      exact lookupA_updateA_self s h _
    · simp [updEntry, hsnap, hr, pyOrS]

/-- Witness for C8 at a concrete Session with registration "REG1". -/
theorem c8_registration_monotone_witness :
    lookupA (pollOk (fun _ => none) 10
        [("AAA111", ⟨some "REG1", none, none, none, none, 0⟩)]
        [{ hex := some "AAA111" }]).1 "AAA111" =
      some (updEntry (fun _ => none) 10 "AAA111" { hex := some "AAA111" }
        ⟨some "REG1", none, none, none, none, 0⟩) ∧
    (updEntry (fun _ => none) 10 "AAA111" { hex := some "AAA111" }
        ⟨some "REG1", none, none, none, none, 0⟩).registration = some "REG1" :=
  (c8_registration_monotone (fun _ => none) 10
      [("AAA111", ⟨some "REG1", none, none, none, none, 0⟩)] [] "AAA111"
      ⟨some "REG1", none, none, none, none, 0⟩ "REG1"
      (by decide) (by decide) (by decide)).2
    { hex := some "AAA111" } (by decide) (by decide)

/-- C9: in a Present-to-Present update, an observation carrying a non-null
registration different from the Session's current non-null registration
overwrites it (last-writer-wins among non-null values). -/
theorem c9_registration_last_writer_wins :
    ∀ (cache : String → Option String) (now : Int) (s : List (String × Entry))
      (h : String) (e : Entry) (r1 r2 : String) (ac : Snapshot),
      lookupA s h = some e → e.registration = some r1 →
      effHexU ac = some h → snapReg cache h ac = some r2 → r1 ≠ r2 →
      ∃ e', lookupA (pollOk cache now s [ac]).1 h = some e' ∧
        e'.registration = some r2 := by
  intro cache now s h e r1 r2 ac he hr1 hef hsnap hne
  have hstate : processSnaps (fun _ => false) cache now s [] [ac] =
      (updateA s h (updEntry cache now h ac e), [], false) := by
    simp [processSnaps, hef, he]
  have hempty := snapReg_some_not_empty hsnap
  have hb : h ∈ batchHexes [ac] := by
    simp [batchHexes, List.filterMap_cons, hef]
  have hc : (batchHexes [ac]).contains h = true := List.elem_iff.mpr hb
  refine ⟨updEntry cache now h ac e, ?_, ?_⟩
  · rw [pollOk_eq, hstate]
    simp only [evict]
    rw [lookupA_filter_keepAll _ (fun e' => by
      simp only [hc, Bool.not_true, Bool.false_and, Bool.not_false])]
    exact lookupA_updateA_self s h _
  · simp [updEntry, hsnap, pyOrS, hempty]

/-- Witness for C9: registration "OLD11" is overwritten by broadcast "NEW22". -/
theorem c9_registration_last_writer_wins_witness :
    ∃ e', lookupA (pollOk (fun _ => none) 10
        [("AAA111", ⟨some "OLD11", none, none, none, none, 0⟩)]
        [{ hex := some "AAA111", reg := some "NEW22" }]).1 "AAA111" = some e' ∧
      e'.registration = some "NEW22" :=
  c9_registration_last_writer_wins (fun _ => none) 10
    [("AAA111", ⟨some "OLD11", none, none, none, none, 0⟩)] "AAA111"
    ⟨some "OLD11", none, none, none, none, 0⟩ "OLD11" "NEW22"
    { hex := some "AAA111", reg := some "NEW22" }
    (by decide) (by decide) (by decide) (by decide) (by decide)

/-- C10: `normalize_registration` rejects a field whose stripped, uppercased
value is shorter than 2 characters and accepts it (stripped and uppercased)
otherwise; and a snapshot with no usable `reg` field whose `flight` field
normalizes to `f` creates the new Session and its Visit Event with
registration `f`. -/
theorem c10_flight_fallback :
    (∀ s : String,
      ((pyUpper (pyStrip s)).length < 2 → normalize_registration (some s) = none) ∧
      (2 ≤ (pyUpper (pyStrip s)).length →
        normalize_registration (some s) = some (pyUpper (pyStrip s)))) ∧
    (∀ (cache : String → Option String) (now : Int) (st : List (String × Entry))
        (h f : String) (ac : Snapshot),
        lookupA st h = none → effHexU ac = some h →
        normalize_registration ac.reg = none →
        normalize_registration ac.flight = some f →
        (pollOk cache now st [ac]).2.1 = [⟨now, h, some f, ac.rssi, ac.lat, ac.lon⟩] ∧
        ∃ e', lookupA (pollOk cache now st [ac]).1 h = some e' ∧
          e'.registration = some f) := by
  constructor
  · intro s
    constructor
    · intro hlt
      unfold normalize_registration
      cases ht : truthyStr (some s) with
      | none => rfl
      | some r =>
        have : r = s := by
          by_cases hs : s.isEmpty
          · simp [truthyStr, hs] at ht
          · simp [truthyStr, hs] at ht
            exact ht.symm
        subst this
        simp only
        rw [if_neg (by omega)]
    · intro hge
      have hs : s.isEmpty = false := by
        cases hse : s.isEmpty
        · rfl
        · have h0 : s = "" := (String.isEmpty_iff s).mp hse
          rw [h0] at hge
          simp [pyStrip, pyUpper] at hge
      unfold normalize_registration
      simp [truthyStr, hs, hge]
  · intro cache now st h f ac hst hef hreg hflight
    have hsnap : snapReg cache h ac = some f := by
      simp [snapReg, hreg, hflight, pyOrS]
    have hstate : processSnaps (fun _ => false) cache now st [] [ac] =
        (updateA st h (newEntry cache now h ac), [mkEvent cache now h ac], false) := by
      simp [processSnaps, hef, hst]
    have hb : h ∈ batchHexes [ac] := by
      simp [batchHexes, List.filterMap_cons, hef]
    have hc : (batchHexes [ac]).contains h = true := List.elem_iff.mpr hb
    constructor
    · rw [pollOk_eq, hstate]
      simp [mkEvent, hsnap]
    · refine ⟨newEntry cache now h ac, ?_, by simp [newEntry, hsnap]⟩
      rw [pollOk_eq, hstate]
      simp only [evict]
      rw [lookupA_filter_keepAll _ (fun e' => by
        simp only [hc, Bool.not_true, Bool.false_and, Bool.not_false])]
      exact lookupA_updateA_self st h _

/-- Witness for C10: flight "ua123" becomes registration "UA123" of the new
Session and its Visit Event. -/
theorem c10_flight_fallback_witness :
    (pollOk (fun _ => none) 20 [] [{ hex := some "abc123", flight := some "ua123" }]).2.1 =
      [⟨20, "ABC123", some "UA123", none, none, none⟩] ∧
    ∃ e', lookupA (pollOk (fun _ => none) 20 []
        [{ hex := some "abc123", flight := some "ua123" }]).1 "ABC123" = some e' ∧
      e'.registration = some "UA123" :=
  (c10_flight_fallback.2 (fun _ => none) 20 [] "ABC123" "UA123"
    { hex := some "abc123", flight := some "ua123" }
    (by decide) (by decide) (by decide) (by decide))

end TailLeader
